import Mathlib

/-!
# gphoto2pp: reference-counted handle wrappers

A shallow embedding of `CameraListWrapper` (camera_list_wrapper.cpp) and
`CameraFileWrapper` (camera_file_wrapper.cpp).  Every member function is a
state transformer over a `World`: the state of the native layer, the trace of
native calls issued so far, and the pointer field of every wrapper object,
indexed by the object's address.  Logging has no effect on a world and is left
out.  The native layer is a parameter (`NativeLayer`); `mock` is the
reference-counting instance used where a claim speaks about reference counts,
list contents or file payloads.  The listener state machine of `CameraWrapper`,
whose implementation is not among the sources, is modelled from the spec.

The definitions come first; the lemmas and the theorems for the claims follow.
-/

namespace gphoto2pp

/-! ## Pointers, result codes, exceptions -/

/-- A native handle (`gphoto2::_CameraList*`, `gphoto2::_CameraFile*`): `none` is `nullptr`. -/
abbrev Ptr := Option Nat

/-- The null pointer. -/
abbrev nullptr : Ptr := none

/-- The address of a wrapper object (`this`, `&other`). -/
abbrev Addr := Nat

/-- One byte of a file payload (`char`). -/
abbrev Byte := Fin 256

/-- Native success code. -/
def GP_OK : Int := 0

/-- Native generic error code. -/
def GP_ERROR : Int := -1

/-- Native error code for a bad parameter, such as a null handle. -/
def GP_ERROR_BAD_PARAMETERS : Int := -2

/-- The library error: the failed native result code and the label of the operation. -/
structure gphoto2_exception where
  resultCode : Int
  afterMethod : String
  deriving DecidableEq, Repr

/-- How a member function ends: it returns, it throws the library error, or it
reads an out-parameter that the native call never set (undefined behaviour). -/
inductive Outcome (α : Type) where
  | returned (value : α)
  | thrown (e : gphoto2_exception)
  | undefinedBehaviour
  deriving DecidableEq, Repr

/-- The native entry points, each identified by its C name. -/
inductive NativeFn where
  | gp_list_new | gp_list_ref | gp_list_unref | gp_list_count
  | gp_list_get_name | gp_list_get_value | gp_list_append | gp_list_reset
  | gp_list_sort | gp_list_find_by_name | gp_list_set_name | gp_list_set_value
  | gp_file_new | gp_file_ref | gp_file_unref | gp_file_get_data_and_size
  | gp_file_set_data_and_size | gp_file_get_mime_type | gp_file_set_mime_type
  | gp_file_get_name | gp_file_set_name | gp_file_get_mtime | gp_file_set_mtime
  deriving DecidableEq, Repr

/-- One native call as it appears in the trace: the entry point and the handle passed to it. -/
structure NativeCall where
  fn : NativeFn
  handle : Ptr
  deriving DecidableEq, Repr

/-- The native layer over a state `σ`.  Every entry point returns its integer
result code, the final value of its out-parameter when it has one, and the new
native state.  A `const char**` out-parameter starts as `nullptr` in every
caller, so `none` there stands for "left null"; for an out-parameter the caller
leaves uninitialised (`int index`, `time_t time`, `buffer`/`size`), `none`
stands for "never written". -/
structure NativeLayer (σ : Type) where
  gp_list_new : σ → (Int × Ptr) × σ
  gp_list_ref : Ptr → σ → Int × σ
  gp_list_unref : Ptr → σ → Int × σ
  gp_list_count : Ptr → σ → Int × σ
  gp_list_get_name : Ptr → Int → σ → (Int × Option String) × σ
  gp_list_get_value : Ptr → Int → σ → (Int × Option String) × σ
  gp_list_append : Ptr → String → String → σ → Int × σ
  gp_list_reset : Ptr → σ → Int × σ
  gp_list_sort : Ptr → σ → Int × σ
  gp_list_find_by_name : Ptr → String → σ → (Int × Option Int) × σ
  gp_list_set_name : Ptr → Int → String → σ → Int × σ
  gp_list_set_value : Ptr → Int → String → σ → Int × σ
  gp_file_new : σ → (Int × Ptr) × σ
  gp_file_ref : Ptr → σ → Int × σ
  gp_file_unref : Ptr → σ → Int × σ
  gp_file_get_data_and_size : Ptr → σ → (Int × Option (List Byte)) × σ
  gp_file_set_data_and_size : Ptr → List Byte → σ → Int × σ
  gp_file_get_mime_type : Ptr → σ → (Int × Option String) × σ
  gp_file_set_mime_type : Ptr → String → σ → Int × σ
  gp_file_get_name : Ptr → σ → (Int × Option String) × σ
  gp_file_set_name : Ptr → String → σ → Int × σ
  gp_file_get_mtime : Ptr → σ → (Int × Option Int) × σ
  gp_file_set_mtime : Ptr → Int → σ → Int × σ

/-! ## The world and the execution monad -/

/-- Everything a member function can touch: the native state, the trace of
native calls, and the fields `m_cameraList` / `m_cameraFile` of the wrapper
object at each address. -/
structure World (σ : Type) where
  native : σ
  calls : List NativeCall
  m_cameraList : Addr → Ptr
  m_cameraFile : Addr → Ptr

/-- A member function: from a world to an outcome and the world it leaves
behind.  State changes made before a throw persist. -/
def Exec (σ α : Type) : Type := World σ → Outcome α × World σ

/-- Normal return. -/
def Exec.pure {σ α : Type} (a : α) : Exec σ α := fun w => (Outcome.returned a, w)

/-- Sequencing: a throw or undefined behaviour ends the function at once. -/
def Exec.bind {σ α β : Type} (m : Exec σ α) (f : α → Exec σ β) : Exec σ β := fun w =>
  match m w with
  | (Outcome.returned a, w') => f a w'
  | (Outcome.thrown e, w') => (Outcome.thrown e, w')
  | (Outcome.undefinedBehaviour, w') => (Outcome.undefinedBehaviour, w')

instance {σ : Type} : Monad (Exec σ) where
  pure := Exec.pure
  bind := Exec.bind

/-- Throw the library error. -/
def throwException {σ α : Type} (e : gphoto2_exception) : Exec σ α :=
  fun w => (Outcome.thrown e, w)

/-- Use of a value that was never set. -/
def undefinedBehaviour {σ α : Type} : Exec σ α :=
  fun w => (Outcome.undefinedBehaviour, w)

/-- Read `m_cameraList` of the object at `a`. -/
def get_m_cameraList {σ : Type} (a : Addr) : Exec σ Ptr :=
  fun w => (Outcome.returned (w.m_cameraList a), w)

/-- Write `m_cameraList` of the object at `a`. -/
def set_m_cameraList {σ : Type} (a : Addr) (p : Ptr) : Exec σ Unit :=
  fun w => (Outcome.returned (), { w with m_cameraList := Function.update w.m_cameraList a p })

/-- Read `m_cameraFile` of the object at `a`. -/
def get_m_cameraFile {σ : Type} (a : Addr) : Exec σ Ptr :=
  fun w => (Outcome.returned (w.m_cameraFile a), w)

/-- Write `m_cameraFile` of the object at `a`. -/
def set_m_cameraFile {σ : Type} (a : Addr) (p : Ptr) : Exec σ Unit :=
  fun w => (Outcome.returned (), { w with m_cameraFile := Function.update w.m_cameraFile a p })

/-- Issue one native call: run it on the native state and record it in the trace. -/
def nativeCall {σ α : Type} (fn : NativeFn) (handle : Ptr) (f : σ → α × σ) : Exec σ α :=
  fun w => (Outcome.returned (f w.native).1,
    { w with native := (f w.native).2, calls := w.calls ++ [NativeCall.mk fn handle] })

/-- Modelled from the spec: `checkResponse` of helper_gphoto2 (the response
translator, not among the sources).  It returns the non-negative result value
unchanged when the code signals success and otherwise fails with the library
error carrying the result code and the operation label. -/
def checkResponse {σ : Type} (result : Int) (afterMethod : String) : Exec σ Int :=
  if result < 0 then throwException (gphoto2_exception.mk result afterMethod)
  else Exec.pure result

/-- Modelled from the spec: `checkResponseSilent` of helper_gphoto2 (not among
the sources), the silent variant of the translator: it performs the same check
but only logs a failure and never throws. -/
def checkResponseSilent {σ : Type} (result : Int) (_afterMethod : String) : Exec σ Int :=
  Exec.pure result

/-- The order in which the arguments of one call are evaluated. -/
inductive ArgOrder where
  | leftToRight
  | rightToLeft
  deriving DecidableEq, Repr

/-- The C string a `std::string` hands to the native layer through `c_str()`:
the characters before the first NUL. -/
def c_str (s : String) : String := String.mk (s.data.takeWhile (fun c => c ≠ Char.ofNat 0))

/-! ## CameraListWrapper (camera_list_wrapper.cpp) -/

namespace CameraListWrapper

/-- Default constructor `CameraListWrapper()`. -/
def ctor {σ : Type} (N : NativeLayer σ) (this : Addr) : Exec σ Unit := do
  set_m_cameraList this nullptr
  let r ← nativeCall NativeFn.gp_list_new nullptr N.gp_list_new
  set_m_cameraList this r.2
  let _ ← checkResponse r.1 "gp_list_new"
  pure ()

/-- Destructor `~CameraListWrapper()`. -/
def dtor {σ : Type} (N : NativeLayer σ) (this : Addr) : Exec σ Unit := do
  if (← get_m_cameraList this) ≠ nullptr then
    let r ← nativeCall NativeFn.gp_list_unref (← get_m_cameraList this)
      (N.gp_list_unref (← get_m_cameraList this))
    let _ ← checkResponseSilent r "gp_list_unref"
    set_m_cameraList this nullptr

/-- Move constructor `CameraListWrapper(CameraListWrapper&& other)`. -/
def moveCtor {σ : Type} (_N : NativeLayer σ) (this other : Addr) : Exec σ Unit := do
  set_m_cameraList this (← get_m_cameraList other)
  set_m_cameraList other nullptr

/-- Move assignment `operator=(CameraListWrapper&& other)`. -/
def moveAssign {σ : Type} (N : NativeLayer σ) (this other : Addr) : Exec σ Unit := do
  if this ≠ other then
    if (← get_m_cameraList this) ≠ nullptr then
      let r ← nativeCall NativeFn.gp_list_unref (← get_m_cameraList this)
        (N.gp_list_unref (← get_m_cameraList this))
      let _ ← checkResponse r "gp_list_unref"
    set_m_cameraList this (← get_m_cameraList other)
    set_m_cameraList other nullptr

/-- Copy constructor `CameraListWrapper(const CameraListWrapper& other)`; the
result of `gp_list_ref` is not checked. -/
def copyCtor {σ : Type} (N : NativeLayer σ) (this other : Addr) : Exec σ Unit := do
  set_m_cameraList this (← get_m_cameraList other)
  if (← get_m_cameraList this) ≠ nullptr then
    let _ ← nativeCall NativeFn.gp_list_ref (← get_m_cameraList this)
      (N.gp_list_ref (← get_m_cameraList this))

/-- Copy assignment `operator=(const CameraListWrapper& other)`. -/
def copyAssign {σ : Type} (N : NativeLayer σ) (this other : Addr) : Exec σ Unit := do
  if this ≠ other then
    if (← get_m_cameraList this) ≠ nullptr then
      let r ← nativeCall NativeFn.gp_list_unref (← get_m_cameraList this)
        (N.gp_list_unref (← get_m_cameraList this))
      let _ ← checkResponse r "gp_list_unref"
    set_m_cameraList this (← get_m_cameraList other)
    if (← get_m_cameraList this) ≠ nullptr then
      let r ← nativeCall NativeFn.gp_list_ref (← get_m_cameraList this)
        (N.gp_list_ref (← get_m_cameraList this))
      let _ ← checkResponse r "gp_list_ref"

/-- The member `getPtr()`. -/
def getPtr {σ : Type} (_N : NativeLayer σ) (this : Addr) : Exec σ Ptr :=
  get_m_cameraList this

/-- The member `count()`. -/
def count {σ : Type} (N : NativeLayer σ) (this : Addr) : Exec σ Int := do
  let r ← nativeCall NativeFn.gp_list_count (← get_m_cameraList this)
    (N.gp_list_count (← get_m_cameraList this))
  checkResponse r "gp_list_count"

/-- The member `getName(index)`: `temp` starts as `nullptr`, and a null `temp`
after a successful call gives the empty string. -/
def getName {σ : Type} (N : NativeLayer σ) (this : Addr) (index : Int) : Exec σ String := do
  let r ← nativeCall NativeFn.gp_list_get_name (← get_m_cameraList this)
    (N.gp_list_get_name (← get_m_cameraList this) index)
  let _ ← checkResponse r.1 "gp_list_get_name"
  match r.2 with
  | none => pure ""
  | some temp => pure temp

/-- The member `getValue(index)`. -/
def getValue {σ : Type} (N : NativeLayer σ) (this : Addr) (index : Int) : Exec σ String := do
  let r ← nativeCall NativeFn.gp_list_get_value (← get_m_cameraList this)
    (N.gp_list_get_value (← get_m_cameraList this) index)
  let _ ← checkResponse r.1 "gp_list_get_value"
  match r.2 with
  | none => pure ""
  | some temp => pure temp

/-- The member `append(name, value)`: both strings cross to the native layer as C strings. -/
def append {σ : Type} (N : NativeLayer σ) (this : Addr) (name value : String) : Exec σ Unit := do
  let r ← nativeCall NativeFn.gp_list_append (← get_m_cameraList this)
    (N.gp_list_append (← get_m_cameraList this) (c_str name) (c_str value))
  let _ ← checkResponse r "gp_list_append"
  pure ()

/-- The member `reset()`. -/
def reset {σ : Type} (N : NativeLayer σ) (this : Addr) : Exec σ Unit := do
  let r ← nativeCall NativeFn.gp_list_reset (← get_m_cameraList this)
    (N.gp_list_reset (← get_m_cameraList this))
  let _ ← checkResponse r "gp_list_reset"
  pure ()

/-- The member `sort()`. -/
def sort {σ : Type} (N : NativeLayer σ) (this : Addr) : Exec σ Unit := do
  let r ← nativeCall NativeFn.gp_list_sort (← get_m_cameraList this)
    (N.gp_list_sort (← get_m_cameraList this))
  let _ ← checkResponse r "gp_list_sort"
  pure ()

/-- The member `findByName(name)`: the local `index` is uninitialised, so
returning it when the native call never wrote it is undefined behaviour. -/
def findByName {σ : Type} (N : NativeLayer σ) (this : Addr) (name : String) : Exec σ Int := do
  let r ← nativeCall NativeFn.gp_list_find_by_name (← get_m_cameraList this)
    (N.gp_list_find_by_name (← get_m_cameraList this) (c_str name))
  let _ ← checkResponse r.1 "gp_list_find_by_name"
  match r.2 with
  | none => undefinedBehaviour
  | some index => pure index

/-- The member `setName(index, name)`. -/
def setName {σ : Type} (N : NativeLayer σ) (this : Addr) (index : Int) (name : String) :
    Exec σ Unit := do
  let r ← nativeCall NativeFn.gp_list_set_name (← get_m_cameraList this)
    (N.gp_list_set_name (← get_m_cameraList this) index (c_str name))
  let _ ← checkResponse r "gp_list_set_name"
  pure ()

/-- The member `setValue(index, value)`. -/
def setValue {σ : Type} (N : NativeLayer σ) (this : Addr) (index : Int) (value : String) :
    Exec σ Unit := do
  let r ← nativeCall NativeFn.gp_list_set_value (← get_m_cameraList this)
    (N.gp_list_set_value (← get_m_cameraList this) index (c_str value))
  let _ ← checkResponse r "gp_list_set_value"
  pure ()

/-- The two arguments of `std::make_pair(getName(index), getValue(index))`
evaluated in the order the compiler picked: the language leaves it unspecified. -/
def makePairOfNameAndValue {σ : Type} (N : NativeLayer σ) (this : Addr) (index : Int) :
    ArgOrder → Exec σ (String × String)
  | ArgOrder.leftToRight => do
    let first ← getName N this index
    let second ← getValue N this index
    pure (first, second)
  | ArgOrder.rightToLeft => do
    let second ← getValue N this index
    let first ← getName N this index
    pure (first, second)

/-- The member `getPair(index)`. -/
def getPair {σ : Type} (N : NativeLayer σ) (order : ArgOrder) (this : Addr) (index : Int) :
    Exec σ (String × String) :=
  makePairOfNameAndValue N this index order

/-- The member `getPairByName(name)`: the index is looked up first, then the pair is made. -/
def getPairByName {σ : Type} (N : NativeLayer σ) (order : ArgOrder) (this : Addr)
    (name : String) : Exec σ (String × String) := do
  let index ← findByName N this name
  makePairOfNameAndValue N this index order

end CameraListWrapper

/-! ## CameraFileWrapper (camera_file_wrapper.cpp) -/

namespace CameraFileWrapper

/-- Default constructor `CameraFileWrapper()`. -/
def ctor {σ : Type} (N : NativeLayer σ) (this : Addr) : Exec σ Unit := do
  set_m_cameraFile this nullptr
  let r ← nativeCall NativeFn.gp_file_new nullptr N.gp_file_new
  set_m_cameraFile this r.2
  let _ ← checkResponse r.1 "gp_file_new"
  pure ()

/-- Destructor `~CameraFileWrapper()`. -/
def dtor {σ : Type} (N : NativeLayer σ) (this : Addr) : Exec σ Unit := do
  if (← get_m_cameraFile this) ≠ nullptr then
    let r ← nativeCall NativeFn.gp_file_unref (← get_m_cameraFile this)
      (N.gp_file_unref (← get_m_cameraFile this))
    let _ ← checkResponseSilent r "gp_file_unref"
    set_m_cameraFile this nullptr

/-- Move constructor `CameraFileWrapper(CameraFileWrapper&& other)`. -/
def moveCtor {σ : Type} (_N : NativeLayer σ) (this other : Addr) : Exec σ Unit := do
  set_m_cameraFile this (← get_m_cameraFile other)
  set_m_cameraFile other nullptr

/-- Move assignment `operator=(CameraFileWrapper&& other)`. -/
def moveAssign {σ : Type} (N : NativeLayer σ) (this other : Addr) : Exec σ Unit := do
  if this ≠ other then
    if (← get_m_cameraFile this) ≠ nullptr then
      let r ← nativeCall NativeFn.gp_file_unref (← get_m_cameraFile this)
        (N.gp_file_unref (← get_m_cameraFile this))
      let _ ← checkResponse r "gp_file_unref"
    set_m_cameraFile this (← get_m_cameraFile other)
    set_m_cameraFile other nullptr

/-- Copy constructor `CameraFileWrapper(const CameraFileWrapper& other)`; the
result of `gp_file_ref` is not checked. -/
def copyCtor {σ : Type} (N : NativeLayer σ) (this other : Addr) : Exec σ Unit := do
  set_m_cameraFile this (← get_m_cameraFile other)
  if (← get_m_cameraFile this) ≠ nullptr then
    let _ ← nativeCall NativeFn.gp_file_ref (← get_m_cameraFile this)
      (N.gp_file_ref (← get_m_cameraFile this))

/-- Copy assignment `operator=(const CameraFileWrapper& other)`.  Under the
comment "Release current objects resource" the source calls `gp_file_ref` on
the current handle, unchecked, and then nulls the pointer. -/
def copyAssign {σ : Type} (N : NativeLayer σ) (this other : Addr) : Exec σ Unit := do
  if this ≠ other then
    if (← get_m_cameraFile this) ≠ nullptr then
      let _ ← nativeCall NativeFn.gp_file_ref (← get_m_cameraFile this)
        (N.gp_file_ref (← get_m_cameraFile this))
      set_m_cameraFile this nullptr
    set_m_cameraFile this (← get_m_cameraFile other)
    if (← get_m_cameraFile this) ≠ nullptr then
      let _ ← nativeCall NativeFn.gp_file_ref (← get_m_cameraFile this)
        (N.gp_file_ref (← get_m_cameraFile this))

/-- The member `getPtr()`. -/
def getPtr {σ : Type} (_N : NativeLayer σ) (this : Addr) : Exec σ Ptr :=
  get_m_cameraFile this

/-- The member `getDataAndSize()`: `size` is uninitialised and `buffer` null
before the call; the returned vector is a copy of `buffer[0 .. size)`. -/
def getDataAndSize {σ : Type} (N : NativeLayer σ) (this : Addr) : Exec σ (List Byte) := do
  let r ← nativeCall NativeFn.gp_file_get_data_and_size (← get_m_cameraFile this)
    (N.gp_file_get_data_and_size (← get_m_cameraFile this))
  let _ ← checkResponse r.1 "gp_file_get_data_and_size"
  match r.2 with
  | none => undefinedBehaviour
  | some buffer => pure buffer

/-- The member `setDataAndSize(file)`: the native layer receives a copy of the bytes. -/
def setDataAndSize {σ : Type} (N : NativeLayer σ) (this : Addr) (file : List Byte) :
    Exec σ Unit := do
  let myCopy := file
  let r ← nativeCall NativeFn.gp_file_set_data_and_size (← get_m_cameraFile this)
    (N.gp_file_set_data_and_size (← get_m_cameraFile this) myCopy)
  let _ ← checkResponse r "gp_file_set_data_and_size"
  pure ()

/-- The member `getMimeType()`: `std::string(temp)` on a null `temp` is undefined behaviour. -/
def getMimeType {σ : Type} (N : NativeLayer σ) (this : Addr) : Exec σ String := do
  let r ← nativeCall NativeFn.gp_file_get_mime_type (← get_m_cameraFile this)
    (N.gp_file_get_mime_type (← get_m_cameraFile this))
  let _ ← checkResponse r.1 "gp_file_get_mime_type"
  match r.2 with
  | none => undefinedBehaviour
  | some temp => pure temp

/-- The member `setMimeType(mimeType)`. -/
def setMimeType {σ : Type} (N : NativeLayer σ) (this : Addr) (mimeType : String) :
    Exec σ Unit := do
  let r ← nativeCall NativeFn.gp_file_set_mime_type (← get_m_cameraFile this)
    (N.gp_file_set_mime_type (← get_m_cameraFile this) (c_str mimeType))
  let _ ← checkResponse r "gp_file_set_mime_type"
  pure ()

/-- The member `getFileName()`. -/
def getFileName {σ : Type} (N : NativeLayer σ) (this : Addr) : Exec σ String := do
  let r ← nativeCall NativeFn.gp_file_get_name (← get_m_cameraFile this)
    (N.gp_file_get_name (← get_m_cameraFile this))
  let _ ← checkResponse r.1 "gp_file_get_name"
  match r.2 with
  | none => undefinedBehaviour
  | some temp => pure temp

/-- The member `setFileName(fileName)`. -/
def setFileName {σ : Type} (N : NativeLayer σ) (this : Addr) (fileName : String) :
    Exec σ Unit := do
  let r ← nativeCall NativeFn.gp_file_set_name (← get_m_cameraFile this)
    (N.gp_file_set_name (← get_m_cameraFile this) (c_str fileName))
  let _ ← checkResponse r "gp_file_set_name"
  pure ()

/-- The member `getMtime()`: the local `time` is uninitialised before the call. -/
def getMtime {σ : Type} (N : NativeLayer σ) (this : Addr) : Exec σ Int := do
  let r ← nativeCall NativeFn.gp_file_get_mtime (← get_m_cameraFile this)
    (N.gp_file_get_mtime (← get_m_cameraFile this))
  let _ ← checkResponse r.1 "gp_file_get_mtime"
  match r.2 with
  | none => undefinedBehaviour
  | some time => pure time

/-- The member `setMtime(mtime)`. -/
def setMtime {σ : Type} (N : NativeLayer σ) (this : Addr) (mtime : Int) : Exec σ Unit := do
  let r ← nativeCall NativeFn.gp_file_set_mtime (← get_m_cameraFile this)
    (N.gp_file_set_mtime (← get_m_cameraFile this) mtime)
  let _ ← checkResponse r "gp_file_set_mtime"
  pure ()

end CameraFileWrapper

/-! ## The mock native layer -/

/-- Modelled from the spec: the native list object behind a list handle
(`struct _CameraList` of the wrapped library, external to the sources): its
external reference count and its ordered name/value entries.  A reference count
of zero means the handle is not allocated, or was released. -/
structure CameraList where
  ref_count : Nat
  entries : List (String × String)
  deriving DecidableEq, Repr

/-- Modelled from the spec: the native file object behind a file handle
(`struct _CameraFile` of the wrapped library, external to the sources): its
external reference count, byte payload, MIME type, name and timestamp. -/
structure CameraFile where
  ref_count : Nat
  data : List Byte
  mime_type : String
  name : String
  mtime : Int
  deriving DecidableEq, Repr

/-- Modelled from the spec: the state of the mock native layer exposing the
reference counts: the object behind every handle value and the next handle
value to hand out. -/
structure MockNative where
  lists : Nat → CameraList
  files : Nat → CameraFile
  next : Nat

namespace Mock

/-- Modelled from the spec: the validity check every native list function
starts with (the wrapped library is external to the sources): the handle when
it is non-null and its object has a non-zero reference count, a released
object being gone. -/
def checkList (s : MockNative) (p : Ptr) : Option Nat :=
  match p with
  | none => none
  | some h => if (s.lists h).ref_count = 0 then none else some h

/-- Modelled from the spec: the validity check every native file function
starts with, as for lists. -/
def checkFile (s : MockNative) (p : Ptr) : Option Nat :=
  match p with
  | none => none
  | some h => if (s.files h).ref_count = 0 then none else some h

/-- Store a list object behind a handle. -/
def setList (s : MockNative) (h : Nat) (l : CameraList) : MockNative :=
  { s with lists := Function.update s.lists h l }

/-- Store a file object behind a handle. -/
def setFile (s : MockNative) (h : Nat) (f : CameraFile) : MockNative :=
  { s with files := Function.update s.files h f }

/-- Modelled from the spec: "construct (allocate new handle, refcount = 1)". -/
def gp_list_new (s : MockNative) : (Int × Ptr) × MockNative :=
  ((GP_OK, some s.next),
    { s with lists := Function.update s.lists s.next (CameraList.mk 1 []), next := s.next + 1 })

/-- Modelled from the spec: the native ref increments the reference count of a valid handle. -/
def gp_list_ref (p : Ptr) (s : MockNative) : Int × MockNative :=
  match checkList s p with
  | none => (GP_ERROR_BAD_PARAMETERS, s)
  | some h => (GP_OK, setList s h
      ({ s.lists h with ref_count := (s.lists h).ref_count + 1 }))

/-- Modelled from the spec: "release only decrements it, freeing occurs at zero". -/
def gp_list_unref (p : Ptr) (s : MockNative) : Int × MockNative :=
  match checkList s p with
  | none => (GP_ERROR_BAD_PARAMETERS, s)
  | some h =>
    if (s.lists h).ref_count = 1 then
      (GP_OK, setList s h (CameraList.mk 0 []))
    else
      (GP_OK, setList s h
      ({ s.lists h with ref_count := (s.lists h).ref_count - 1 }))

/-- Modelled from the spec: the number of entries of a valid list. -/
def gp_list_count (p : Ptr) (s : MockNative) : Int × MockNative :=
  match checkList s p with
  | none => (GP_ERROR_BAD_PARAMETERS, s)
  | some h => (((s.lists h).entries.length : Int), s)

/-- Modelled from the spec: "indexed name/value lookup (index must be in
`[0, count)`, else fails)". -/
def gp_list_get_name (p : Ptr) (index : Int) (s : MockNative) : (Int × Option String) × MockNative :=
  match checkList s p with
  | none => ((GP_ERROR_BAD_PARAMETERS, none), s)
  | some h =>
    if 0 ≤ index ∧ index < ((s.lists h).entries.length : Int) then
      ((GP_OK, ((s.lists h).entries.get? index.toNat).map Prod.fst), s)
    else ((GP_ERROR_BAD_PARAMETERS, none), s)

/-- Modelled from the spec: indexed value lookup, failing outside `[0, count)`. -/
def gp_list_get_value (p : Ptr) (index : Int) (s : MockNative) : (Int × Option String) × MockNative :=
  match checkList s p with
  | none => ((GP_ERROR_BAD_PARAMETERS, none), s)
  | some h =>
    if 0 ≤ index ∧ index < ((s.lists h).entries.length : Int) then
      ((GP_OK, ((s.lists h).entries.get? index.toNat).map Prod.snd), s)
    else ((GP_ERROR_BAD_PARAMETERS, none), s)

/-- Modelled from the spec: append adds one entry after the existing ones. -/
def gp_list_append (p : Ptr) (name value : String) (s : MockNative) : Int × MockNative :=
  match checkList s p with
  | none => (GP_ERROR_BAD_PARAMETERS, s)
  | some h => (GP_OK, setList s h
      ({ s.lists h with entries := (s.lists h).entries ++ [(name, value)] }))

/-- Modelled from the spec: "reset (clear all entries)". -/
def gp_list_reset (p : Ptr) (s : MockNative) : Int × MockNative :=
  match checkList s p with
  | none => (GP_ERROR_BAD_PARAMETERS, s)
  | some h => (GP_OK, setList s h
      ({ s.lists h with entries := [] }))

/-- Modelled from the spec: sort orders the entries by name. -/
def gp_list_sort (p : Ptr) (s : MockNative) : Int × MockNative :=
  match checkList s p with
  | none => (GP_ERROR_BAD_PARAMETERS, s)
  | some h => (GP_OK, setList s h
      ({ s.lists h with entries :=
          (s.lists h).entries.mergeSort (fun a b => decide (a.1 < b.1 ∨ a.1 = b.1)) }))

/-- Modelled from the spec: the search loop of find-by-name (external to the
sources): the indices below `i` are scanned from the highest down, and the
first entry whose name matches is returned. -/
def findBackwards (entries : List (String × String)) (name : String) : Nat → Option Nat
  | 0 => none
  | i + 1 =>
    if (entries.get? i).map Prod.fst = some name then some i
    else findBackwards entries name i

/-- Modelled from the spec: "find-by-name (fails if absent)". -/
def gp_list_find_by_name (p : Ptr) (name : String) (s : MockNative) :
    (Int × Option Int) × MockNative :=
  match checkList s p with
  | none => ((GP_ERROR_BAD_PARAMETERS, none), s)
  | some h =>
    match findBackwards (s.lists h).entries name (s.lists h).entries.length with
    | some i => ((GP_OK, some (i : Int)), s)
    | none => ((GP_ERROR, none), s)

/-- Modelled from the spec: overwrite the name of the entry at an index in `[0, count)`. -/
def gp_list_set_name (p : Ptr) (index : Int) (name : String) (s : MockNative) : Int × MockNative :=
  match checkList s p with
  | none => (GP_ERROR_BAD_PARAMETERS, s)
  | some h =>
    if 0 ≤ index ∧ index < ((s.lists h).entries.length : Int) then
      (GP_OK, setList s h
      ({ s.lists h with entries := (s.lists h).entries.modify (fun e => (name, e.2)) index.toNat }))
    else (GP_ERROR_BAD_PARAMETERS, s)

/-- Modelled from the spec: overwrite the value of the entry at an index in `[0, count)`. -/
def gp_list_set_value (p : Ptr) (index : Int) (value : String) (s : MockNative) :
    Int × MockNative :=
  match checkList s p with
  | none => (GP_ERROR_BAD_PARAMETERS, s)
  | some h =>
    if 0 ≤ index ∧ index < ((s.lists h).entries.length : Int) then
      (GP_OK, setList s h
      ({ s.lists h with entries := (s.lists h).entries.modify (fun e => (e.1, value)) index.toNat }))
    else (GP_ERROR_BAD_PARAMETERS, s)

/-- Modelled from the spec: "construct (allocate new handle, refcount = 1)", for files. -/
def gp_file_new (s : MockNative) : (Int × Ptr) × MockNative :=
  ((GP_OK, some s.next),
    { s with files := Function.update s.files s.next (CameraFile.mk 1 [] "unknown/unknown" "" 0),
             next := s.next + 1 })

/-- Modelled from the spec: the native ref increments the reference count of a valid file handle. -/
def gp_file_ref (p : Ptr) (s : MockNative) : Int × MockNative :=
  match checkFile s p with
  | none => (GP_ERROR_BAD_PARAMETERS, s)
  | some h => (GP_OK, setFile s h
      ({ s.files h with ref_count := (s.files h).ref_count + 1 }))

/-- Modelled from the spec: "release only decrements it, freeing occurs at zero", for files. -/
def gp_file_unref (p : Ptr) (s : MockNative) : Int × MockNative :=
  match checkFile s p with
  | none => (GP_ERROR_BAD_PARAMETERS, s)
  | some h =>
    if (s.files h).ref_count = 1 then
      (GP_OK, setFile s h
      (CameraFile.mk 0 [] "" "" 0))
    else
      (GP_OK, setFile s h
      ({ s.files h with ref_count := (s.files h).ref_count - 1 }))

/-- Modelled from the spec: the native buffer and its size, for a valid file handle. -/
def gp_file_get_data_and_size (p : Ptr) (s : MockNative) :
    (Int × Option (List Byte)) × MockNative :=
  match checkFile s p with
  | none => ((GP_ERROR_BAD_PARAMETERS, none), s)
  | some h => ((GP_OK, some (s.files h).data), s)

/-- Modelled from the spec: the file takes over the bytes it is given. -/
def gp_file_set_data_and_size (p : Ptr) (data : List Byte) (s : MockNative) : Int × MockNative :=
  match checkFile s p with
  | none => (GP_ERROR_BAD_PARAMETERS, s)
  | some h => (GP_OK, setFile s h
      ({ s.files h with data := data }))

/-- Modelled from the spec: the MIME type getter. -/
def gp_file_get_mime_type (p : Ptr) (s : MockNative) : (Int × Option String) × MockNative :=
  match checkFile s p with
  | none => ((GP_ERROR_BAD_PARAMETERS, none), s)
  | some h => ((GP_OK, some (s.files h).mime_type), s)

/-- Modelled from the spec: the MIME type setter. -/
def gp_file_set_mime_type (p : Ptr) (mime : String) (s : MockNative) : Int × MockNative :=
  match checkFile s p with
  | none => (GP_ERROR_BAD_PARAMETERS, s)
  | some h => (GP_OK, setFile s h
      ({ s.files h with mime_type := mime }))

/-- Modelled from the spec: the file name getter. -/
def gp_file_get_name (p : Ptr) (s : MockNative) : (Int × Option String) × MockNative :=
  match checkFile s p with
  | none => ((GP_ERROR_BAD_PARAMETERS, none), s)
  | some h => ((GP_OK, some (s.files h).name), s)

/-- Modelled from the spec: the file name setter. -/
def gp_file_set_name (p : Ptr) (name : String) (s : MockNative) : Int × MockNative :=
  match checkFile s p with
  | none => (GP_ERROR_BAD_PARAMETERS, s)
  | some h => (GP_OK, setFile s h
      ({ s.files h with name := name }))

/-- Modelled from the spec: the timestamp getter. -/
def gp_file_get_mtime (p : Ptr) (s : MockNative) : (Int × Option Int) × MockNative :=
  match checkFile s p with
  | none => ((GP_ERROR_BAD_PARAMETERS, none), s)
  | some h => ((GP_OK, some (s.files h).mtime), s)

/-- Modelled from the spec: the timestamp setter. -/
def gp_file_set_mtime (p : Ptr) (mtime : Int) (s : MockNative) : Int × MockNative :=
  match checkFile s p with
  | none => (GP_ERROR_BAD_PARAMETERS, s)
  | some h => (GP_OK, setFile s h
      ({ s.files h with mtime := mtime }))

/-- The mock state before any native call: no handle is allocated. -/
def empty : MockNative where
  lists := fun _ => CameraList.mk 0 []
  files := fun _ => CameraFile.mk 0 [] "" "" 0
  next := 0

end Mock

/-- Modelled from the spec: the mock native layer "exposing get-refcount" that
the testable properties are phrased against, standing for the wrapped native
library (external to the sources). -/
def mock : NativeLayer MockNative where
  gp_list_new := Mock.gp_list_new
  gp_list_ref := Mock.gp_list_ref
  gp_list_unref := Mock.gp_list_unref
  gp_list_count := Mock.gp_list_count
  gp_list_get_name := Mock.gp_list_get_name
  gp_list_get_value := Mock.gp_list_get_value
  gp_list_append := Mock.gp_list_append
  gp_list_reset := Mock.gp_list_reset
  gp_list_sort := Mock.gp_list_sort
  gp_list_find_by_name := Mock.gp_list_find_by_name
  gp_list_set_name := Mock.gp_list_set_name
  gp_list_set_value := Mock.gp_list_set_value
  gp_file_new := Mock.gp_file_new
  gp_file_ref := Mock.gp_file_ref
  gp_file_unref := Mock.gp_file_unref
  gp_file_get_data_and_size := Mock.gp_file_get_data_and_size
  gp_file_set_data_and_size := Mock.gp_file_set_data_and_size
  gp_file_get_mime_type := Mock.gp_file_get_mime_type
  gp_file_set_mime_type := Mock.gp_file_set_mime_type
  gp_file_get_name := Mock.gp_file_get_name
  gp_file_set_name := Mock.gp_file_set_name
  gp_file_get_mtime := Mock.gp_file_get_mtime
  gp_file_set_mtime := Mock.gp_file_set_mtime

/-- The native reference count of a list handle. -/
def listRefCount (w : World MockNative) (h : Nat) : Nat := (w.native.lists h).ref_count

/-- The native reference count of a file handle. -/
def fileRefCount (w : World MockNative) (h : Nat) : Nat := (w.native.files h).ref_count

/-- The world before anything ran: empty mock, empty trace, every pointer field null. -/
def World.initial : World MockNative where
  native := Mock.empty
  calls := []
  m_cameraList := fun _ => nullptr
  m_cameraFile := fun _ => nullptr

/-! ## Programs over CameraListWrapper instances -/

/-- One operation of a client program on `CameraListWrapper` objects, named by
their addresses: `a` is the object acted on, `b` the `other` argument. -/
inductive ListOp where
  | defaultConstruct (a : Addr)
  | copyConstruct (a b : Addr)
  | copyAssign (a b : Addr)
  | moveConstruct (a b : Addr)
  | moveAssign (a b : Addr)
  | destroy (a : Addr)
  deriving DecidableEq, Repr

/-- The state of a client program: the world and the addresses of the live
`CameraListWrapper` instances. -/
structure Program where
  world : World MockNative
  live : List Addr

/-- The program state before any operation. -/
def Program.initial : Program where
  world := World.initial
  live := []

/-- The end of a constructor call at address `a`: the object is live when the
constructor returned, and does not exist when it threw. -/
def Program.constructed (p : Program) (a : Addr) (r : Outcome Unit × World MockNative) :
    Program :=
  match r.1 with
  | Outcome.returned _ => { world := r.2, live := a :: p.live }
  | _ => { world := r.2, live := p.live }

/-- One operation against the mock native layer.  An operation that is not a
C++ program (it constructs an object where one is live, or uses an object that
is not live) is skipped. -/
def Program.step (p : Program) : ListOp → Program
  | ListOp.defaultConstruct a =>
    if a ∈ p.live then p
    else p.constructed a (CameraListWrapper.ctor mock a p.world)
  | ListOp.copyConstruct a b =>
    if a ∉ p.live ∧ b ∈ p.live then
      p.constructed a (CameraListWrapper.copyCtor mock a b p.world)
    else p
  | ListOp.copyAssign a b =>
    if a ∈ p.live ∧ b ∈ p.live then
      { p with world := (CameraListWrapper.copyAssign mock a b p.world).2 }
    else p
  | ListOp.moveConstruct a b =>
    if a ∉ p.live ∧ b ∈ p.live then
      p.constructed a (CameraListWrapper.moveCtor mock a b p.world)
    else p
  | ListOp.moveAssign a b =>
    if a ∈ p.live ∧ b ∈ p.live then
      { p with world := (CameraListWrapper.moveAssign mock a b p.world).2 }
    else p
  | ListOp.destroy a =>
    if a ∈ p.live then
      { world := (CameraListWrapper.dtor mock a p.world).2, live := p.live.erase a }
    else p

/-- Run a sequence of operations from the initial state. -/
def Program.run (ops : List ListOp) : Program := ops.foldl Program.step Program.initial

/-- The number of live wrapper instances whose `m_cameraList` points to handle `h`. -/
def Program.liveCount (p : Program) (h : Nat) : Nat :=
  p.live.countP (fun a => decide (p.world.m_cameraList a = some h))

/-- The reference-counting invariant of a program state: no address is live
twice, every list handle's native reference count is the number of live
wrappers pointing to it, and no handle the mock has yet to hand out is counted. -/
def Program.Inv (p : Program) : Prop :=
  p.live.Nodup ∧
  (∀ h, listRefCount p.world h = p.liveCount h) ∧
  (∀ h, p.world.native.next ≤ h → listRefCount p.world h = 0)

/-! ## Concrete worlds -/

/-- Two `CameraFileWrapper` objects, default-constructed at addresses 0 and 1:
they hold the handles 0 and 1. -/
def twoFiles : World MockNative :=
  (CameraFileWrapper.ctor mock 1 (CameraFileWrapper.ctor mock 0 World.initial).2).2

/-- Two `CameraListWrapper` objects, default-constructed at addresses 0 and 1:
they hold the handles 0 and 1. -/
def twoLists : World MockNative :=
  (CameraListWrapper.ctor mock 1 (CameraListWrapper.ctor mock 0 World.initial).2).2

/-- A `CameraListWrapper` default-constructed at address 0 and a copy of it
constructed at address 1: both hold handle 0. -/
def sharedList : World MockNative :=
  (CameraListWrapper.copyCtor mock 1 0 (CameraListWrapper.ctor mock 0 World.initial).2).2

/-- A `CameraFileWrapper` default-constructed at address 0 and a copy of it
constructed at address 1: both hold handle 0. -/
def sharedFile : World MockNative :=
  (CameraFileWrapper.copyCtor mock 1 0 (CameraFileWrapper.ctor mock 0 World.initial).2).2

/-- A `CameraListWrapper` default-constructed at address 0, after
`append("a","1")` and `append("b","2")`. -/
def abList : World MockNative :=
  (CameraListWrapper.append mock 0 "b" "2"
    (CameraListWrapper.append mock 0 "a" "1"
      (CameraListWrapper.ctor mock 0 World.initial).2).2).2

/-- The three-character `std::string` made of `b`, a NUL character and `x`. -/
def nameWithNul : String := String.mk [Char.ofNat 98, Char.ofNat 0, Char.ofNat 120]

/-! ## Native layers that reject the null handle -/

/-- A native layer whose read entry points answer the null handle with an error
code (a negative result), in every native state. -/
def NativeLayer.RejectsNull {σ : Type} (N : NativeLayer σ) : Prop :=
  ∀ s : σ,
    (N.gp_list_count nullptr s).1 < 0 ∧
    (∀ index, (N.gp_list_get_name nullptr index s).1.1 < 0) ∧
    (∀ index, (N.gp_list_get_value nullptr index s).1.1 < 0) ∧
    (∀ name, (N.gp_list_find_by_name nullptr name s).1.1 < 0) ∧
    (N.gp_file_get_data_and_size nullptr s).1.1 < 0 ∧
    (N.gp_file_get_mime_type nullptr s).1.1 < 0 ∧
    (N.gp_file_get_name nullptr s).1.1 < 0 ∧
    (N.gp_file_get_mtime nullptr s).1.1 < 0

/-! ## A world with a stale handle -/

/-- The world `twoLists` after the native list behind handle 1 was released
behind the wrappers' back (a client calling `gp_list_unref` on `getPtr()`): the
wrapper at address 1 still holds handle 1, which the native layer no longer
knows. -/
def staleLists : World MockNative :=
  { twoLists with native := (Mock.gp_list_unref (some 1) twoLists.native).2 }

/-! ## The event listener of CameraWrapper (camera_wrapper.hpp) -/

/-- Modelled from the spec: the states of the listener state machine of the
camera session, "Idle → Listening → StopRequested → Idle" (camera_wrapper.cpp
is not among the sources, only the declarations of camera_wrapper.hpp are). -/
inductive ListenerState where
  | Idle
  | Listening
  | StopRequested
  deriving DecidableEq, Repr

/-- Modelled from the spec: the listener part of a `CameraWrapper` (its
implementation is not among the sources): the state of the listener state
machine and the number of background listener threads that were spawned and
have not exited yet. -/
structure CameraWrapper where
  state : ListenerState
  listeners : Nat
  deriving DecidableEq, Repr

namespace CameraWrapper

/-- Modelled from the spec: a freshly constructed session; "Idle is both
initial and terminal", and no listener thread exists. -/
def initial : CameraWrapper where
  state := ListenerState.Idle
  listeners := 0

/-- Modelled from the spec: the atomic flag `m_listenForEvents` (declared in
camera_wrapper.hpp, maintained by the missing implementation): "flag true iff
a thread is active or finishing". -/
def m_listenForEvents (c : CameraWrapper) : Bool :=
  decide (c.state ≠ ListenerState.Idle)

/-- Modelled from the spec: `startListeningForEvents()` (implementation not
among the sources): "returns false and does nothing if already listening;
otherwise spawns the background listener and returns true". -/
def startListeningForEvents (c : CameraWrapper) : Outcome Bool × CameraWrapper :=
  if c.m_listenForEvents then (Outcome.returned false, c)
  else (Outcome.returned true,
    { state := ListenerState.Listening, listeners := c.listeners + 1 })

/-- Modelled from the spec: the first half of `stopListeningForEvents()`
(implementation not among the sources): it "signals the background listener to
stop", the transition Listening → StopRequested. -/
def signalStop (c : CameraWrapper) : CameraWrapper :=
  match c.state with
  | ListenerState.Listening => { c with state := ListenerState.StopRequested }
  | _ => c

/-- Modelled from the spec: the listener loop (implementation not among the
sources) "observes the stop flag after each wait-for-event call completes and
exits, returning to Idle". -/
def listenerObservesStop (c : CameraWrapper) : CameraWrapper :=
  match c.state with
  | ListenerState.StopRequested =>
    { state := ListenerState.Idle, listeners := c.listeners - 1 }
  | _ => c

/-- Modelled from the spec: `stopListeningForEvents()` (implementation not
among the sources): it signals the listener to stop, "then blocks until the
thread has fully exited; safe to call when not listening (returns
immediately)". -/
def stopListeningForEvents (c : CameraWrapper) : Outcome Unit × CameraWrapper :=
  if c.m_listenForEvents then (Outcome.returned (), c.signalStop.listenerObservesStop)
  else (Outcome.returned (), c)

/-- What can happen to a session's listener: a call of
`startListeningForEvents`, a whole call of `stopListeningForEvents`, or, seen
from another thread while such a call is in progress, its stop signal and the
listener's exit as two separate steps. -/
inductive Event where
  | start
  | stop
  | signalStop
  | listenerObservesStop
  deriving DecidableEq, Repr

/-- One event applied to a session. -/
def step (c : CameraWrapper) : Event → CameraWrapper
  | Event.start => c.startListeningForEvents.2
  | Event.stop => c.stopListeningForEvents.2
  | Event.signalStop => c.signalStop
  | Event.listenerObservesStop => c.listenerObservesStop

/-- The session reached from a fresh one by a sequence of events. -/
def run (events : List Event) : CameraWrapper := events.foldl step initial

end CameraWrapper

/-! ## Execution lemmas -/

@[simp] theorem Exec.bind_eq {σ α β : Type} (m : Exec σ α) (f : α → Exec σ β) (w : World σ) :
    (m >>= f) w = Exec.bind m f w := rfl

@[simp] theorem Exec.pure_eq {σ α : Type} (a : α) (w : World σ) :
    (Pure.pure a : Exec σ α) w = (Outcome.returned a, w) := rfl

/-! ## The mock's reference counting -/

theorem Mock.gp_list_ref_valid (s : MockNative) (h : Nat) (hv : (s.lists h).ref_count ≠ 0) :
    (Mock.gp_list_ref (some h) s).1 = GP_OK ∧
    (Mock.gp_list_ref (some h) s).2.next = s.next ∧
    ∀ x, ((Mock.gp_list_ref (some h) s).2.lists x).ref_count =
      (s.lists x).ref_count + (if some h = some x then 1 else 0) := by
  refine ⟨?_, ?_, ?_⟩
  · simp [Mock.gp_list_ref, Mock.checkList, hv]
  · simp [Mock.gp_list_ref, Mock.checkList, hv, Mock.setList]
  · intro x
    by_cases hx : h = x
    · subst hx; simp [Mock.gp_list_ref, Mock.checkList, hv, Mock.setList]
    · have hx' : x ≠ h := fun e => hx e.symm
      simp [Mock.gp_list_ref, Mock.checkList, hv, Mock.setList, hx, Function.update_noteq hx']

theorem Mock.gp_list_unref_valid (s : MockNative) (h : Nat) (hv : (s.lists h).ref_count ≠ 0) :
    (Mock.gp_list_unref (some h) s).1 = GP_OK ∧
    (Mock.gp_list_unref (some h) s).2.next = s.next ∧
    ∀ x, ((Mock.gp_list_unref (some h) s).2.lists x).ref_count +
      (if some h = some x then 1 else 0) = (s.lists x).ref_count := by
  refine ⟨?_, ?_, ?_⟩
  · by_cases h1 : (s.lists h).ref_count = 1 <;>
      simp [Mock.gp_list_unref, Mock.checkList, hv, h1]
  · by_cases h1 : (s.lists h).ref_count = 1 <;>
      simp [Mock.gp_list_unref, Mock.checkList, hv, h1, Mock.setList]
  · intro x
    by_cases hx : h = x
    · subst hx
      by_cases h1 : (s.lists h).ref_count = 1
      · simp [Mock.gp_list_unref, Mock.checkList, hv, h1, Mock.setList]
      · simp [Mock.gp_list_unref, Mock.checkList, hv, h1, Mock.setList]
        omega
    · have hx' : x ≠ h := fun e => hx e.symm
      by_cases h1 : (s.lists h).ref_count = 1 <;>
        simp [Mock.gp_list_unref, Mock.checkList, hv, h1, Mock.setList, hx,
          Function.update_noteq hx']

theorem Mock.gp_file_ref_valid (s : MockNative) (h : Nat) (hv : (s.files h).ref_count ≠ 0) :
    (Mock.gp_file_ref (some h) s).1 = GP_OK ∧
    (Mock.gp_file_ref (some h) s).2.next = s.next ∧
    ∀ x, ((Mock.gp_file_ref (some h) s).2.files x).ref_count =
      (s.files x).ref_count + (if some h = some x then 1 else 0) := by
  refine ⟨?_, ?_, ?_⟩
  · simp [Mock.gp_file_ref, Mock.checkFile, hv]
  · simp [Mock.gp_file_ref, Mock.checkFile, hv, Mock.setFile]
  · intro x
    by_cases hx : h = x
    · subst hx; simp [Mock.gp_file_ref, Mock.checkFile, hv, Mock.setFile]
    · have hx' : x ≠ h := fun e => hx e.symm
      simp [Mock.gp_file_ref, Mock.checkFile, hv, Mock.setFile, hx, Function.update_noteq hx']

theorem Mock.gp_file_unref_valid (s : MockNative) (h : Nat) (hv : (s.files h).ref_count ≠ 0) :
    (Mock.gp_file_unref (some h) s).1 = GP_OK ∧
    (Mock.gp_file_unref (some h) s).2.next = s.next ∧
    ∀ x, ((Mock.gp_file_unref (some h) s).2.files x).ref_count +
      (if some h = some x then 1 else 0) = (s.files x).ref_count := by
  refine ⟨?_, ?_, ?_⟩
  · by_cases h1 : (s.files h).ref_count = 1 <;>
      simp [Mock.gp_file_unref, Mock.checkFile, hv, h1]
  · by_cases h1 : (s.files h).ref_count = 1 <;>
      simp [Mock.gp_file_unref, Mock.checkFile, hv, h1, Mock.setFile]
  · intro x
    by_cases hx : h = x
    · subst hx
      by_cases h1 : (s.files h).ref_count = 1
      · simp [Mock.gp_file_unref, Mock.checkFile, hv, h1, Mock.setFile]
      · simp [Mock.gp_file_unref, Mock.checkFile, hv, h1, Mock.setFile]
        omega
    · have hx' : x ≠ h := fun e => hx e.symm
      by_cases h1 : (s.files h).ref_count = 1 <;>
        simp [Mock.gp_file_unref, Mock.checkFile, hv, h1, Mock.setFile, hx,
          Function.update_noteq hx']

theorem Mock.gp_list_unref_invalid (s : MockNative) (h : Nat) (hv : (s.lists h).ref_count = 0) :
    Mock.gp_list_unref (some h) s = (GP_ERROR_BAD_PARAMETERS, s) := by
  simp [Mock.gp_list_unref, Mock.checkList, hv]

theorem Mock.gp_file_unref_invalid (s : MockNative) (h : Nat) (hv : (s.files h).ref_count = 0) :
    Mock.gp_file_unref (some h) s = (GP_ERROR_BAD_PARAMETERS, s) := by
  simp [Mock.gp_file_unref, Mock.checkFile, hv]

theorem CameraListWrapper.dtor_null {σ : Type} (N : NativeLayer σ) (w : World σ) (a : Addr)
    (h : w.m_cameraList a = nullptr) :
    CameraListWrapper.dtor N a w = (Outcome.returned (), w) := by
  simp [CameraListWrapper.dtor, Exec.bind, get_m_cameraList, h]

theorem CameraFileWrapper.file_dtor_null {σ : Type} (N : NativeLayer σ) (w : World σ) (a : Addr)
    (h : w.m_cameraFile a = nullptr) :
    CameraFileWrapper.dtor N a w = (Outcome.returned (), w) := by
  simp [CameraFileWrapper.dtor, Exec.bind, get_m_cameraFile, h]

/-! ## Counting the wrappers that point to a handle -/

theorem countP_update_not_mem (f : Addr → Ptr) (a : Addr) (q : Ptr) (h : Nat) (L : List Addr)
    (ha : a ∉ L) :
    L.countP (fun b => decide (Function.update f a q b = some h)) =
      L.countP (fun b => decide (f b = some h)) := by
  induction L with
  | nil => rfl
  | cons b L ih =>
    have hb : b ≠ a := fun e => ha (by simp [e])
    have hL : a ∉ L := fun e => ha (by simp [e])
    simp [List.countP_cons, Function.update_noteq hb, ih hL]

theorem countP_update_mem (f : Addr → Ptr) (a : Addr) (q : Ptr) (h : Nat) (L : List Addr)
    (ha : a ∈ L) (hnd : L.Nodup) :
    L.countP (fun b => decide (Function.update f a q b = some h)) +
        (if f a = some h then 1 else 0) =
      L.countP (fun b => decide (f b = some h)) + (if q = some h then 1 else 0) := by
  induction L with
  | nil => simp at ha
  | cons b L ih =>
    rw [List.nodup_cons] at hnd
    by_cases hb : b = a
    · subst hb
      have := countP_update_not_mem f b q h L hnd.1
      simp only [List.countP_cons, this, Function.update_same]
      by_cases h1 : f b = some h <;> by_cases h2 : q = some h <;> simp [h1, h2]
    · have haL : a ∈ L := by
        rcases List.mem_cons.mp ha with e | e
        · exact absurd e.symm hb
        · exact e
      have := ih haL hnd.2
      simp only [List.countP_cons, Function.update_noteq hb]
      omega

theorem countP_erase_mem (f : Addr → Ptr) (a : Addr) (h : Nat) (L : List Addr)
    (ha : a ∈ L) (hnd : L.Nodup) :
    (L.erase a).countP (fun b => decide (f b = some h)) + (if f a = some h then 1 else 0) =
      L.countP (fun b => decide (f b = some h)) := by
  induction L with
  | nil => simp at ha
  | cons b L ih =>
    rw [List.nodup_cons] at hnd
    by_cases hb : b = a
    · subst hb
      simp [List.countP_cons]
    · have haL : a ∈ L := by
        rcases List.mem_cons.mp ha with e | e
        · exact absurd e.symm hb
        · exact e
      have := ih haL hnd.2
      rw [List.erase_cons_tail (by simpa using hb)]
      simp only [List.countP_cons]
      omega

theorem countP_pos_of_mem (f : Addr → Ptr) (a : Addr) (h : Nat) (L : List Addr)
    (ha : a ∈ L) (hf : f a = some h) :
    1 ≤ L.countP (fun b => decide (f b = some h)) := by
  have : 0 < L.countP (fun b => decide (f b = some h)) :=
    List.countP_pos_iff.mpr ⟨a, ha, by simp [hf]⟩
  omega

theorem countP_two_of_mem (f : Addr → Ptr) (a b : Addr) (h : Nat) (L : List Addr)
    (ha : a ∈ L) (hb : b ∈ L) (hab : a ≠ b) (hnd : L.Nodup)
    (hfa : f a = some h) (hfb : f b = some h) :
    2 ≤ L.countP (fun c => decide (f c = some h)) := by
  have h1 := countP_erase_mem f a h L ha hnd
  have hb' : b ∈ L.erase a := (List.mem_erase_of_ne (fun e => hab e.symm)).mpr hb
  have h2 := countP_pos_of_mem f b h (L.erase a) hb' hfb
  simp [hfa] at h1
  omega

/-! ## The list wrapper's special members on the mock -/

theorem CameraListWrapper.ctor_mock (w : World MockNative) (this : Addr) :
    (CameraListWrapper.ctor mock this w).1 = Outcome.returned () ∧
    (CameraListWrapper.ctor mock this w).2.m_cameraList =
      Function.update w.m_cameraList this (some w.native.next) ∧
    (CameraListWrapper.ctor mock this w).2.native.next = w.native.next + 1 ∧
    ∀ x, listRefCount (CameraListWrapper.ctor mock this w).2 x =
      if x = w.native.next then 1 else listRefCount w x := by
  refine ⟨?_, ?_, ?_, ?_⟩
  · simp [CameraListWrapper.ctor, Exec.bind, set_m_cameraList, nativeCall, mock,
      Mock.gp_list_new, checkResponse, GP_OK, Exec.pure]
  · simp [CameraListWrapper.ctor, Exec.bind, set_m_cameraList, nativeCall, mock,
      Mock.gp_list_new, checkResponse, GP_OK, Exec.pure]
  · simp [CameraListWrapper.ctor, Exec.bind, set_m_cameraList, nativeCall, mock,
      Mock.gp_list_new, checkResponse, GP_OK, Exec.pure]
  · intro x
    by_cases hx : x = w.native.next
    · simp [CameraListWrapper.ctor, Exec.bind, set_m_cameraList, nativeCall, mock,
        Mock.gp_list_new, checkResponse, GP_OK, Exec.pure, listRefCount, hx]
    · simp [CameraListWrapper.ctor, Exec.bind, set_m_cameraList, nativeCall, mock,
        Mock.gp_list_new, checkResponse, GP_OK, Exec.pure, listRefCount, hx,
        Function.update_noteq hx]

theorem CameraListWrapper.copyCtor_mock (w : World MockNative) (this other : Addr)
    (hother : ∀ q, w.m_cameraList other = some q → listRefCount w q ≠ 0) :
    (CameraListWrapper.copyCtor mock this other w).1 = Outcome.returned () ∧
    (CameraListWrapper.copyCtor mock this other w).2.m_cameraList =
      Function.update w.m_cameraList this (w.m_cameraList other) ∧
    (CameraListWrapper.copyCtor mock this other w).2.native.next = w.native.next ∧
    ∀ x, listRefCount (CameraListWrapper.copyCtor mock this other w).2 x =
      listRefCount w x + (if w.m_cameraList other = some x then 1 else 0) := by
  cases ho : w.m_cameraList other with
  | none =>
    simp [CameraListWrapper.copyCtor, Exec.bind, set_m_cameraList, get_m_cameraList, ho,
      listRefCount]
  | some q =>
    have hv := hother q ho
    have hr := Mock.gp_list_ref_valid w.native q hv
    simp [CameraListWrapper.copyCtor, Exec.bind, set_m_cameraList, get_m_cameraList, ho,
      listRefCount, nativeCall, mock, hr.2.1]
    intro x
    simpa using hr.2.2 x

theorem CameraListWrapper.dtor_mock (w : World MockNative) (this : Addr)
    (hthis : ∀ p, w.m_cameraList this = some p → listRefCount w p ≠ 0) :
    (CameraListWrapper.dtor mock this w).2.m_cameraList =
      Function.update w.m_cameraList this nullptr ∧
    (CameraListWrapper.dtor mock this w).2.native.next = w.native.next ∧
    ∀ x, listRefCount (CameraListWrapper.dtor mock this w).2 x +
      (if w.m_cameraList this = some x then 1 else 0) = listRefCount w x := by
  cases ht : w.m_cameraList this with
  | none =>
    simp [CameraListWrapper.dtor, Exec.bind, get_m_cameraList, ht, Exec.pure]
  | some p =>
    have hr := Mock.gp_list_unref_valid w.native p (hthis p ht)
    simp [CameraListWrapper.dtor, Exec.bind, set_m_cameraList, get_m_cameraList, ht,
      listRefCount, nativeCall, mock, hr.2.1, checkResponseSilent, Exec.pure]
    intro x
    simpa using hr.2.2 x

theorem CameraListWrapper.moveCtor_mock (w : World MockNative) (this other : Addr) :
    (CameraListWrapper.moveCtor mock this other w).1 = Outcome.returned () ∧
    (CameraListWrapper.moveCtor mock this other w).2.m_cameraList =
      Function.update (Function.update w.m_cameraList this (w.m_cameraList other))
        other nullptr ∧
    (CameraListWrapper.moveCtor mock this other w).2.native = w.native := by
  simp [CameraListWrapper.moveCtor, Exec.bind, set_m_cameraList, get_m_cameraList]

theorem CameraListWrapper.moveAssign_mock (w : World MockNative) (this other : Addr)
    (hne : this ≠ other)
    (hthis : ∀ p, w.m_cameraList this = some p → listRefCount w p ≠ 0) :
    (CameraListWrapper.moveAssign mock this other w).1 = Outcome.returned () ∧
    (CameraListWrapper.moveAssign mock this other w).2.m_cameraList =
      Function.update (Function.update w.m_cameraList this (w.m_cameraList other))
        other nullptr ∧
    (CameraListWrapper.moveAssign mock this other w).2.native.next = w.native.next ∧
    ∀ x, listRefCount (CameraListWrapper.moveAssign mock this other w).2 x +
      (if w.m_cameraList this = some x then 1 else 0) = listRefCount w x := by
  cases ht : w.m_cameraList this with
  | none =>
    simp [CameraListWrapper.moveAssign, Exec.bind, set_m_cameraList, get_m_cameraList, ht,
      hne, Exec.pure, listRefCount]
  | some p =>
    have hr := Mock.gp_list_unref_valid w.native p (hthis p ht)
    simp [CameraListWrapper.moveAssign, Exec.bind, set_m_cameraList, get_m_cameraList, ht,
      hne, listRefCount, nativeCall, mock, hr.1, hr.2.1, checkResponse, GP_OK, Exec.pure]
    intro x
    simpa using hr.2.2 x

theorem CameraListWrapper.copyAssign_mock (w : World MockNative) (this other : Addr)
    (hne : this ≠ other)
    (hthis : ∀ p, w.m_cameraList this = some p → listRefCount w p ≠ 0)
    (hother : ∀ q, w.m_cameraList other = some q → listRefCount w q ≠ 0)
    (hshare : ∀ p, w.m_cameraList this = some p → w.m_cameraList other = some p →
      2 ≤ listRefCount w p) :
    (CameraListWrapper.copyAssign mock this other w).1 = Outcome.returned () ∧
    (CameraListWrapper.copyAssign mock this other w).2.m_cameraList =
      Function.update w.m_cameraList this (w.m_cameraList other) ∧
    (CameraListWrapper.copyAssign mock this other w).2.native.next = w.native.next ∧
    ∀ x, listRefCount (CameraListWrapper.copyAssign mock this other w).2 x +
        (if w.m_cameraList this = some x then 1 else 0) =
      listRefCount w x + (if w.m_cameraList other = some x then 1 else 0) := by
  have hne' : other ≠ this := fun e => hne e.symm
  cases ht : w.m_cameraList this with
  | none =>
    cases ho : w.m_cameraList other with
    | none =>
      simp [CameraListWrapper.copyAssign, Exec.bind, set_m_cameraList, get_m_cameraList, ht,
        ho, hne, Exec.pure, listRefCount]
    | some q =>
      have hr := Mock.gp_list_ref_valid w.native q (hother q ho)
      simp [CameraListWrapper.copyAssign, Exec.bind, set_m_cameraList, get_m_cameraList, ht,
        ho, hne, listRefCount, nativeCall, mock, hr.1, hr.2.1, checkResponse, GP_OK,
        Exec.pure]
      intro x
      simpa using hr.2.2 x
  | some p =>
    have hu := Mock.gp_list_unref_valid w.native p (hthis p ht)
    cases ho : w.m_cameraList other with
    | none =>
      simp [CameraListWrapper.copyAssign, Exec.bind, set_m_cameraList, get_m_cameraList, ht,
        ho, hne, listRefCount, nativeCall, mock, hu.1, hu.2.1, checkResponse, GP_OK,
        Exec.pure]
      intro x
      simpa using hu.2.2 x
    | some q =>
      have hq : ((Mock.gp_list_unref (some p) w.native).2.lists q).ref_count ≠ 0 := by
        have h1 := hu.2.2 q
        have h2 := hother q ho
        by_cases hpq : p = q
        · subst hpq
          have h3 := hshare p ht ho
          simp [listRefCount] at h1 h3
          omega
        · simp [listRefCount, hpq] at h1 h2
          omega
      have hr := Mock.gp_list_ref_valid (Mock.gp_list_unref (some p) w.native).2 q hq
      simp [CameraListWrapper.copyAssign, Exec.bind, set_m_cameraList, get_m_cameraList, ht,
        ho, hne, listRefCount, nativeCall, mock, hu.1, hu.2.1, hr.1, hr.2.1, checkResponse,
        GP_OK, Exec.pure]
      intro x
      have h1 := hu.2.2 x
      have h2 := hr.2.2 x
      simp only [Option.some.injEq] at h1 h2 ⊢
      omega

/-! ## The reference-counting invariant -/

theorem Program.Inv.valid {p : Program} (hi : p.Inv) {a : Addr} (ha : a ∈ p.live) :
    ∀ q, p.world.m_cameraList a = some q → listRefCount p.world q ≠ 0 := by
  intro q hq
  have h1 := hi.2.1 q
  have h2 := countP_pos_of_mem p.world.m_cameraList a q p.live ha hq
  simp only [Program.liveCount] at h1
  omega

theorem Program.Inv.shared {p : Program} (hi : p.Inv) {a b : Addr} (ha : a ∈ p.live)
    (hb : b ∈ p.live) (hab : a ≠ b) :
    ∀ q, p.world.m_cameraList a = some q → p.world.m_cameraList b = some q →
      2 ≤ listRefCount p.world q := by
  intro q hqa hqb
  have h1 := hi.2.1 q
  have h2 := countP_two_of_mem p.world.m_cameraList a b q p.live ha hb hab hi.1 hqa hqb
  simp only [Program.liveCount] at h1
  omega

theorem Program.initial_inv : Program.initial.Inv := by
  refine ⟨?_, ?_, ?_⟩
  · simp [Program.initial]
  · intro h
    simp [Program.initial, Program.liveCount, listRefCount, World.initial, Mock.empty]
  · intro h _
    simp [Program.initial, listRefCount, World.initial, Mock.empty]

theorem Program.step_defaultConstruct_inv (p : Program) (a : Addr) (hi : p.Inv) :
    (p.step (ListOp.defaultConstruct a)).Inv := by
  by_cases ha : a ∈ p.live
  · simpa [Program.step, ha] using hi
  · obtain ⟨h1, h2, h3, h4⟩ := CameraListWrapper.ctor_mock p.world a
    simp only [Program.step, ha, if_false, Program.constructed, h1]
    refine ⟨?_, ?_, ?_⟩
    · exact List.nodup_cons.mpr ⟨ha, hi.1⟩
    · intro h
      have e1 := hi.2.1 h
      have e2 := hi.2.2 p.world.native.next (le_refl _)
      have e3 := countP_update_not_mem p.world.m_cameraList a (some p.world.native.next) h
        p.live ha
      simp only [Program.liveCount] at e1 ⊢
      rw [h4 h, h2, List.countP_cons, e3, ← e1]
      simp only [Function.update_same, decide_eq_true_eq, Option.some.injEq]
      by_cases hx : h = p.world.native.next
      · subst hx
        simp [e2]
      · have hx' : p.world.native.next ≠ h := fun e => hx e.symm
        simp [hx, hx']
    · intro h hh
      rw [h3] at hh
      rw [h4 h]
      have : h ≠ p.world.native.next := by omega
      simp only [this, if_false]
      exact hi.2.2 h (by omega)

theorem Program.step_copyConstruct_inv (p : Program) (a b : Addr) (hi : p.Inv) :
    (p.step (ListOp.copyConstruct a b)).Inv := by
  by_cases hc : a ∉ p.live ∧ b ∈ p.live
  · obtain ⟨ha, hb⟩ := hc
    obtain ⟨h1, h2, h3, h4⟩ := CameraListWrapper.copyCtor_mock p.world a b (hi.valid hb)
    simp only [Program.step, ha, hb, not_false_eq_true, and_self, if_true, Program.constructed,
      h1]
    refine ⟨List.nodup_cons.mpr ⟨ha, hi.1⟩, ?_, ?_⟩
    · intro h
      have e1 := hi.2.1 h
      have e3 := countP_update_not_mem p.world.m_cameraList a (p.world.m_cameraList b) h
        p.live ha
      simp only [Program.liveCount] at e1 ⊢
      rw [h4 h, h2, List.countP_cons, e3, ← e1]
      simp only [Function.update_same, decide_eq_true_eq]
    · intro h hh
      rw [h3] at hh
      rw [h4 h]
      have e1 := hi.2.1 h
      have e2 := hi.2.2 h hh
      by_cases hq : p.world.m_cameraList b = some h
      · have := hi.valid hb h hq
        omega
      · simp [hq, e2]
  · simpa [Program.step, hc] using hi

theorem CameraListWrapper.copyAssign_self {σ : Type} (N : NativeLayer σ) (w : World σ)
    (a : Addr) : CameraListWrapper.copyAssign N a a w = (Outcome.returned (), w) := by
  simp [CameraListWrapper.copyAssign]

theorem CameraListWrapper.moveAssign_self {σ : Type} (N : NativeLayer σ) (w : World σ)
    (a : Addr) : CameraListWrapper.moveAssign N a a w = (Outcome.returned (), w) := by
  simp [CameraListWrapper.moveAssign]

theorem Program.step_copyAssign_inv (p : Program) (a b : Addr) (hi : p.Inv) :
    (p.step (ListOp.copyAssign a b)).Inv := by
  by_cases hc : a ∈ p.live ∧ b ∈ p.live
  · obtain ⟨ha, hb⟩ := hc
    by_cases hab : a = b
    · subst hab
      simpa [Program.step, ha, CameraListWrapper.copyAssign_self] using hi
    · obtain ⟨_, h2, h3, h4⟩ := CameraListWrapper.copyAssign_mock p.world a b hab
        (hi.valid ha) (hi.valid hb) (hi.shared ha hb hab)
      simp only [Program.step, ha, hb, and_self, if_true]
      refine ⟨hi.1, ?_, ?_⟩
      · intro h
        have e1 := hi.2.1 h
        have e3 := countP_update_mem p.world.m_cameraList a (p.world.m_cameraList b) h
          p.live ha hi.1
        have e4 := h4 h
        simp only [Program.liveCount] at e1 ⊢
        rw [h2]
        omega
      · intro h hh
        rw [h3] at hh
        have e2 := hi.2.2 h hh
        have e4 := h4 h
        by_cases hq : p.world.m_cameraList b = some h
        · have := hi.valid hb h hq
          omega
        · simp only [hq, if_false] at e4
          dsimp only
          omega
  · simpa [Program.step, hc] using hi

theorem Program.step_moveConstruct_inv (p : Program) (a b : Addr) (hi : p.Inv) :
    (p.step (ListOp.moveConstruct a b)).Inv := by
  by_cases hc : a ∉ p.live ∧ b ∈ p.live
  · obtain ⟨ha, hb⟩ := hc
    have hab : a ≠ b := fun e => ha (e ▸ hb)
    obtain ⟨h1, h2, h3⟩ := CameraListWrapper.moveCtor_mock p.world a b
    simp only [Program.step, ha, hb, not_false_eq_true, and_self, if_true, Program.constructed,
      h1]
    refine ⟨List.nodup_cons.mpr ⟨ha, hi.1⟩, ?_, ?_⟩
    · intro h
      have e1 := hi.2.1 h
      have e3 := countP_update_not_mem p.world.m_cameraList a (p.world.m_cameraList b) h
        p.live ha
      have e4 := countP_update_mem
        (Function.update p.world.m_cameraList a (p.world.m_cameraList b)) b nullptr h
        p.live hb hi.1
      simp only [Program.liveCount, listRefCount] at e1 ⊢
      rw [h2, h3, List.countP_cons]
      simp only [Function.update_noteq hab, Function.update_same, decide_eq_true_eq]
      simp only [Function.update_noteq (Ne.symm hab), reduceCtorEq, if_false] at e4
      omega
    · intro h hh
      simp only [listRefCount, h3] at hh ⊢
      exact hi.2.2 h hh
  · simpa [Program.step, hc] using hi

theorem Program.step_moveAssign_inv (p : Program) (a b : Addr) (hi : p.Inv) :
    (p.step (ListOp.moveAssign a b)).Inv := by
  by_cases hc : a ∈ p.live ∧ b ∈ p.live
  · obtain ⟨ha, hb⟩ := hc
    by_cases hab : a = b
    · subst hab
      simpa [Program.step, ha, CameraListWrapper.moveAssign_self] using hi
    · obtain ⟨_, h2, h3, h4⟩ := CameraListWrapper.moveAssign_mock p.world a b hab
        (hi.valid ha)
      simp only [Program.step, ha, hb, and_self, if_true]
      refine ⟨hi.1, ?_, ?_⟩
      · intro h
        have e1 := hi.2.1 h
        have e3 := countP_update_mem p.world.m_cameraList a (p.world.m_cameraList b) h
          p.live ha hi.1
        have e4 := countP_update_mem
          (Function.update p.world.m_cameraList a (p.world.m_cameraList b)) b nullptr h
          p.live hb hi.1
        have e5 := h4 h
        simp only [Program.liveCount] at e1 ⊢
        rw [h2]
        simp only [Function.update_noteq (Ne.symm hab), reduceCtorEq, if_false] at e4
        omega
      · intro h hh
        rw [h3] at hh
        have e2 := hi.2.2 h hh
        have e4 := h4 h
        dsimp only
        omega
  · simpa [Program.step, hc] using hi

theorem Program.step_destroy_inv (p : Program) (a : Addr) (hi : p.Inv) :
    (p.step (ListOp.destroy a)).Inv := by
  by_cases ha : a ∈ p.live
  · obtain ⟨h2, h3, h4⟩ := CameraListWrapper.dtor_mock p.world a (hi.valid ha)
    simp only [Program.step, ha, if_true]
    refine ⟨hi.1.erase a, ?_, ?_⟩
    · intro h
      have e1 := hi.2.1 h
      have hna : a ∉ p.live.erase a := fun e => (List.Nodup.mem_erase_iff hi.1).mp e |>.1 rfl
      have e3 := countP_update_not_mem p.world.m_cameraList a nullptr h (p.live.erase a) hna
      have e4 := countP_erase_mem p.world.m_cameraList a h p.live ha hi.1
      have e5 := h4 h
      simp only [Program.liveCount] at e1 ⊢
      rw [h2, e3]
      omega
    · intro h hh
      rw [h3] at hh
      have e2 := hi.2.2 h hh
      have e4 := h4 h
      dsimp only
      omega
  · simpa [Program.step, ha] using hi

theorem Program.step_inv (p : Program) (op : ListOp) (hi : p.Inv) : (p.step op).Inv := by
  cases op with
  | defaultConstruct a => exact Program.step_defaultConstruct_inv p a hi
  | copyConstruct a b => exact Program.step_copyConstruct_inv p a b hi
  | copyAssign a b => exact Program.step_copyAssign_inv p a b hi
  | moveConstruct a b => exact Program.step_moveConstruct_inv p a b hi
  | moveAssign a b => exact Program.step_moveAssign_inv p a b hi
  | destroy a => exact Program.step_destroy_inv p a hi

theorem Program.foldl_inv (ops : List ListOp) (p : Program) (hi : p.Inv) :
    (ops.foldl Program.step p).Inv := by
  induction ops generalizing p with
  | nil => exact hi
  | cons op ops ih => exact ih (p.step op) (Program.step_inv p op hi)

/-! ## C1: reference counts equal live wrapper counts -/

/-- C1: for every finite sequence of `CameraListWrapper` operations (default
construct, copy-construct, copy-assign, move-construct, move-assign, destroy)
run against the mock native layer, after the sequence the native reference
count of every list handle equals the number of live wrapper instances whose
`m_cameraList` points to that handle. -/
theorem refcount_equals_live_wrapper_count (ops : List ListOp) (h : Nat) :
    listRefCount (Program.run ops).world h = (Program.run ops).liveCount h :=
  (Program.foldl_inv ops Program.initial Program.initial_inv).2.1 h

/-! ## C2: copy assignment of the file wrapper -/

/-- C2 (evaluation at the failing input): in `twoFiles` the `CameraFileWrapper`
objects at addresses 0 and 1 hold the distinct handles 0 and 1, each with
reference count 1.  The copy assignment of object 1 to object 0 returns
normally, issues `gp_file_ref` on handle 0 and then on handle 1, and leaves
handle 0, which no wrapper points to any more, with reference count 2 instead
of 0. -/
theorem file_copyAssign_refs_released_handle :
    twoFiles.m_cameraFile 0 = some 0 ∧ twoFiles.m_cameraFile 1 = some 1 ∧
    fileRefCount twoFiles 0 = 1 ∧ fileRefCount twoFiles 1 = 1 ∧
    (CameraFileWrapper.copyAssign mock 0 1 twoFiles).1 = Outcome.returned () ∧
    (CameraFileWrapper.copyAssign mock 0 1 twoFiles).2.m_cameraFile 0 = some 1 ∧
    fileRefCount (CameraFileWrapper.copyAssign mock 0 1 twoFiles).2 0 = 2 ∧
    fileRefCount (CameraFileWrapper.copyAssign mock 0 1 twoFiles).2 1 = 2 ∧
    (CameraFileWrapper.copyAssign mock 0 1 twoFiles).2.calls =
      twoFiles.calls ++ [NativeCall.mk NativeFn.gp_file_ref (some 0),
        NativeCall.mk NativeFn.gp_file_ref (some 1)] := by
  refine ⟨?_, ?_, ?_, ?_, ?_, ?_, ?_, ?_, ?_⟩ <;> rfl

/-! ## C4: destruction -/

/-- C4: for both wrappers and every native layer, whatever result code its
unref returns, the destructor returns normally; when the held pointer is
non-null it issues exactly one native unref, on that handle, and leaves the
pointer null; when the held pointer is null it issues no native call and
changes nothing. -/
theorem dtor_never_throws_and_unrefs_once {σ : Type} (N : NativeLayer σ) (w : World σ)
    (this : Addr) :
    CameraListWrapper.dtor N this w =
      (Outcome.returned (),
        match w.m_cameraList this with
        | none => w
        | some h =>
          { native := (N.gp_list_unref (some h) w.native).2,
            calls := w.calls ++ [NativeCall.mk NativeFn.gp_list_unref (some h)],
            m_cameraList := Function.update w.m_cameraList this nullptr,
            m_cameraFile := w.m_cameraFile }) ∧
    CameraFileWrapper.dtor N this w =
      (Outcome.returned (),
        match w.m_cameraFile this with
        | none => w
        | some h =>
          { native := (N.gp_file_unref (some h) w.native).2,
            calls := w.calls ++ [NativeCall.mk NativeFn.gp_file_unref (some h)],
            m_cameraList := w.m_cameraList,
            m_cameraFile := Function.update w.m_cameraFile this nullptr }) := by
  constructor
  · cases h : w.m_cameraList this with
    | none => simp [CameraListWrapper.dtor, Exec.bind, get_m_cameraList, h]
    | some x =>
      simp [CameraListWrapper.dtor, Exec.bind, get_m_cameraList, h, nativeCall,
        checkResponseSilent, Exec.pure, set_m_cameraList]
  · cases h : w.m_cameraFile this with
    | none => simp [CameraFileWrapper.dtor, Exec.bind, get_m_cameraFile, h]
    | some x =>
      simp [CameraFileWrapper.dtor, Exec.bind, get_m_cameraFile, h, nativeCall,
        checkResponseSilent, Exec.pure, set_m_cameraFile]

/-! ## C6: self-assignment -/

/-- C6: for both wrappers and every native layer, copy-assigning or
move-assigning an instance to itself returns normally and leaves the whole
world as it was: the pointer is unchanged, no native call is issued, and the
native state, hence every reference count, is unchanged. -/
theorem self_assignment_is_noop {σ : Type} (N : NativeLayer σ) (w : World σ) (a : Addr) :
    CameraListWrapper.copyAssign N a a w = (Outcome.returned (), w) ∧
    CameraListWrapper.moveAssign N a a w = (Outcome.returned (), w) ∧
    CameraFileWrapper.copyAssign N a a w = (Outcome.returned (), w) ∧
    CameraFileWrapper.moveAssign N a a w = (Outcome.returned (), w) := by
  refine ⟨?_, ?_, ?_, ?_⟩
  · simp [CameraListWrapper.copyAssign]
  · simp [CameraListWrapper.moveAssign]
  · simp [CameraFileWrapper.copyAssign]
  · simp [CameraFileWrapper.moveAssign]

/-! ## C3: moves -/

theorem CameraListWrapper.moveAssign_returned (w w' : World MockNative) (this other : Addr)
    (hne : this ≠ other)
    (hr : CameraListWrapper.moveAssign mock this other w = (Outcome.returned (), w')) :
    w'.m_cameraList other = nullptr ∧
    w'.m_cameraList this = w.m_cameraList other ∧
    w'.calls = w.calls ++
      (match w.m_cameraList this with
       | none => []
       | some p => [NativeCall.mk NativeFn.gp_list_unref (some p)]) ∧
    (∀ h, w.m_cameraList this ≠ some h → listRefCount w' h = listRefCount w h) ∧
    (∀ h, w.m_cameraList this = some h → listRefCount w' h + 1 = listRefCount w h) := by
  have hne' : other ≠ this := fun e => hne e.symm
  cases ht : w.m_cameraList this with
  | none =>
    simp [CameraListWrapper.moveAssign, Exec.bind, set_m_cameraList, get_m_cameraList, ht,
      hne, Exec.pure] at hr
    subst hr
    simp [Function.update_noteq hne, listRefCount]
  | some p =>
    by_cases hv : (w.native.lists p).ref_count = 0
    · have hu := Mock.gp_list_unref_invalid w.native p hv
      simp [CameraListWrapper.moveAssign, Exec.bind, set_m_cameraList, get_m_cameraList, ht,
        hne, nativeCall, mock, hu, checkResponse, GP_ERROR_BAD_PARAMETERS, throwException]
        at hr
    · have hu := Mock.gp_list_unref_valid w.native p hv
      simp [CameraListWrapper.moveAssign, Exec.bind, set_m_cameraList, get_m_cameraList, ht,
        hne, nativeCall, mock, hu.1, checkResponse, GP_OK, Exec.pure] at hr
      subst hr
      simp only [Function.update_same, Function.update_noteq hne, listRefCount, true_and]
      refine ⟨?_, ?_⟩
      · intro h hh
        have := hu.2.2 h
        rw [if_neg hh] at this
        omega
      · intro h hh
        have := hu.2.2 h
        rw [if_pos hh] at this
        omega

theorem CameraFileWrapper.file_moveAssign_returned (w w' : World MockNative) (this other : Addr)
    (hne : this ≠ other)
    (hr : CameraFileWrapper.moveAssign mock this other w = (Outcome.returned (), w')) :
    w'.m_cameraFile other = nullptr ∧
    w'.m_cameraFile this = w.m_cameraFile other ∧
    w'.calls = w.calls ++
      (match w.m_cameraFile this with
       | none => []
       | some p => [NativeCall.mk NativeFn.gp_file_unref (some p)]) ∧
    (∀ h, w.m_cameraFile this ≠ some h → fileRefCount w' h = fileRefCount w h) ∧
    (∀ h, w.m_cameraFile this = some h → fileRefCount w' h + 1 = fileRefCount w h) := by
  have hne' : other ≠ this := fun e => hne e.symm
  cases ht : w.m_cameraFile this with
  | none =>
    simp [CameraFileWrapper.moveAssign, Exec.bind, set_m_cameraFile, get_m_cameraFile, ht,
      hne, Exec.pure] at hr
    subst hr
    simp [Function.update_noteq hne, fileRefCount]
  | some p =>
    by_cases hv : (w.native.files p).ref_count = 0
    · have hu := Mock.gp_file_unref_invalid w.native p hv
      simp [CameraFileWrapper.moveAssign, Exec.bind, set_m_cameraFile, get_m_cameraFile, ht,
        hne, nativeCall, mock, hu, checkResponse, GP_ERROR_BAD_PARAMETERS, throwException]
        at hr
    · have hu := Mock.gp_file_unref_valid w.native p hv
      simp [CameraFileWrapper.moveAssign, Exec.bind, set_m_cameraFile, get_m_cameraFile, ht,
        hne, nativeCall, mock, hu.1, checkResponse, GP_OK, Exec.pure] at hr
      subst hr
      simp only [Function.update_same, Function.update_noteq hne, fileRefCount, true_and]
      refine ⟨?_, ?_⟩
      · intro h hh
        have := hu.2.2 h
        rw [if_neg hh] at this
        omega
      · intro h hh
        have := hu.2.2 h
        rw [if_pos hh] at this
        omega

/-- C3 (counterexample): in `sharedList` the list wrappers at addresses 0 and 1
are distinct and both hold handle 0, whose reference count is 2.  The move
assignment of object 1 to object 0 succeeds, yet it issues `gp_list_unref` on
the moved handle 0 and the reference count of that handle drops to 1. -/
theorem moveAssign_unrefs_moved_handle_when_shared :
    sharedList.m_cameraList 0 = some 0 ∧ sharedList.m_cameraList 1 = some 0 ∧
    listRefCount sharedList 0 = 2 ∧
    (CameraListWrapper.moveAssign mock 0 1 sharedList).1 = Outcome.returned () ∧
    (CameraListWrapper.moveAssign mock 0 1 sharedList).2.m_cameraList 0 = some 0 ∧
    (CameraListWrapper.moveAssign mock 0 1 sharedList).2.calls =
      sharedList.calls ++ [NativeCall.mk NativeFn.gp_list_unref (some 0)] ∧
    listRefCount (CameraListWrapper.moveAssign mock 0 1 sharedList).2 0 = 1 ∧
    listRefCount (CameraListWrapper.moveAssign mock 0 1 sharedList).2 0 ≠
      listRefCount sharedList 0 := by
  refine ⟨?_, ?_, ?_, ?_, ?_, ?_, ?_, ?_⟩ <;> decide

/-- C3 (amended): for both wrappers on the mock native layer and distinct
objects `this` and `other`.  Move construction returns, nulls the source's
pointer, gives the destination the pointer the source held, issues no native
call and leaves the native state, hence every reference count, unchanged.  A
move assignment that returns nulls the source's pointer, gives the destination
the pointer the source held, and issues exactly one native call when the
destination's previous pointer was non-null, an unref on that previous pointer,
and none otherwise; so the reference count of every handle other than the
destination's previous one, the moved handle included, is unchanged, and when
the destination already held the moved handle that count drops by one.  In
every case destroying the moved-from source afterwards returns and changes
nothing: no native release call is issued. -/
theorem move_steals_pointer_without_touching_refcount (w : World MockNative)
    (this other : Addr) (hne : this ≠ other) :
    ((CameraListWrapper.moveCtor mock this other w).1 = Outcome.returned () ∧
     (CameraListWrapper.moveCtor mock this other w).2.m_cameraList other = nullptr ∧
     (CameraListWrapper.moveCtor mock this other w).2.m_cameraList this =
       w.m_cameraList other ∧
     (CameraListWrapper.moveCtor mock this other w).2.calls = w.calls ∧
     (∀ h, listRefCount (CameraListWrapper.moveCtor mock this other w).2 h =
       listRefCount w h) ∧
     CameraListWrapper.dtor mock other (CameraListWrapper.moveCtor mock this other w).2 =
       (Outcome.returned (), (CameraListWrapper.moveCtor mock this other w).2)) ∧
    (∀ w', CameraListWrapper.moveAssign mock this other w = (Outcome.returned (), w') →
      w'.m_cameraList other = nullptr ∧
      w'.m_cameraList this = w.m_cameraList other ∧
      w'.calls = w.calls ++
        (match w.m_cameraList this with
         | none => []
         | some p => [NativeCall.mk NativeFn.gp_list_unref (some p)]) ∧
      (∀ h, w.m_cameraList this ≠ some h → listRefCount w' h = listRefCount w h) ∧
      (∀ h, w.m_cameraList this = some h → listRefCount w' h + 1 = listRefCount w h) ∧
      CameraListWrapper.dtor mock other w' = (Outcome.returned (), w')) ∧
    ((CameraFileWrapper.moveCtor mock this other w).1 = Outcome.returned () ∧
     (CameraFileWrapper.moveCtor mock this other w).2.m_cameraFile other = nullptr ∧
     (CameraFileWrapper.moveCtor mock this other w).2.m_cameraFile this =
       w.m_cameraFile other ∧
     (CameraFileWrapper.moveCtor mock this other w).2.calls = w.calls ∧
     (∀ h, fileRefCount (CameraFileWrapper.moveCtor mock this other w).2 h =
       fileRefCount w h) ∧
     CameraFileWrapper.dtor mock other (CameraFileWrapper.moveCtor mock this other w).2 =
       (Outcome.returned (), (CameraFileWrapper.moveCtor mock this other w).2)) ∧
    (∀ w', CameraFileWrapper.moveAssign mock this other w = (Outcome.returned (), w') →
      w'.m_cameraFile other = nullptr ∧
      w'.m_cameraFile this = w.m_cameraFile other ∧
      w'.calls = w.calls ++
        (match w.m_cameraFile this with
         | none => []
         | some p => [NativeCall.mk NativeFn.gp_file_unref (some p)]) ∧
      (∀ h, w.m_cameraFile this ≠ some h → fileRefCount w' h = fileRefCount w h) ∧
      (∀ h, w.m_cameraFile this = some h → fileRefCount w' h + 1 = fileRefCount w h) ∧
      CameraFileWrapper.dtor mock other w' = (Outcome.returned (), w')) := by
  refine ⟨⟨?_, ?_, ?_, ?_, ?_, ?_⟩, ?_, ⟨?_, ?_, ?_, ?_, ?_, ?_⟩, ?_⟩
  · simp [CameraListWrapper.moveCtor, Exec.bind, set_m_cameraList, get_m_cameraList]
  · simp [CameraListWrapper.moveCtor, Exec.bind, set_m_cameraList, get_m_cameraList]
  · simp [CameraListWrapper.moveCtor, Exec.bind, set_m_cameraList, get_m_cameraList,
      Function.update_noteq hne]
  · simp [CameraListWrapper.moveCtor, Exec.bind, set_m_cameraList, get_m_cameraList]
  · intro h
    simp [CameraListWrapper.moveCtor, Exec.bind, set_m_cameraList, get_m_cameraList,
      listRefCount]
  · apply CameraListWrapper.dtor_null
    simp [CameraListWrapper.moveCtor, Exec.bind, set_m_cameraList, get_m_cameraList]
  · intro w' hr
    obtain ⟨h1, h2, h3, h4, h5⟩ := CameraListWrapper.moveAssign_returned w w' this other hne hr
    exact ⟨h1, h2, h3, h4, h5, CameraListWrapper.dtor_null mock w' other h1⟩
  · simp [CameraFileWrapper.moveCtor, Exec.bind, set_m_cameraFile, get_m_cameraFile]
  · simp [CameraFileWrapper.moveCtor, Exec.bind, set_m_cameraFile, get_m_cameraFile]
  · simp [CameraFileWrapper.moveCtor, Exec.bind, set_m_cameraFile, get_m_cameraFile,
      Function.update_noteq hne]
  · simp [CameraFileWrapper.moveCtor, Exec.bind, set_m_cameraFile, get_m_cameraFile]
  · intro h
    simp [CameraFileWrapper.moveCtor, Exec.bind, set_m_cameraFile, get_m_cameraFile,
      fileRefCount]
  · apply CameraFileWrapper.file_dtor_null
    simp [CameraFileWrapper.moveCtor, Exec.bind, set_m_cameraFile, get_m_cameraFile]
  · intro w' hr
    obtain ⟨h1, h2, h3, h4, h5⟩ := CameraFileWrapper.file_moveAssign_returned w w' this other hne hr
    exact ⟨h1, h2, h3, h4, h5, CameraFileWrapper.file_dtor_null mock w' other h1⟩

/-- C3 (witness): in `twoLists` the move assignment of object 1 to object 0
returns; afterwards object 1 is null, object 0 holds handle 1, and the
reference count of handle 1 is what it was. -/
theorem move_steals_pointer_witness :
    (0 : Addr) ≠ 1 ∧
    CameraListWrapper.moveAssign mock 0 1 twoLists =
      (Outcome.returned (), (CameraListWrapper.moveAssign mock 0 1 twoLists).2) ∧
    (CameraListWrapper.moveAssign mock 0 1 twoLists).2.m_cameraList 1 = nullptr ∧
    (CameraListWrapper.moveAssign mock 0 1 twoLists).2.m_cameraList 0 =
      twoLists.m_cameraList 1 ∧
    listRefCount (CameraListWrapper.moveAssign mock 0 1 twoLists).2 1 =
      listRefCount twoLists 1 :=
  ⟨by decide, rfl,
    ((move_steals_pointer_without_touching_refcount twoLists 0 1 (by decide)).2.1 _ rfl).1,
    ((move_steals_pointer_without_touching_refcount twoLists 0 1 (by decide)).2.1 _ rfl).2.1,
    ((move_steals_pointer_without_touching_refcount twoLists 0 1 (by decide)).2.1 _
      rfl).2.2.2.1 1 (by decide)⟩

/-! ## C5: copy construction -/

theorem mock_rejectsNull : mock.RejectsNull := by
  intro s
  simp [mock, Mock.gp_list_count, Mock.gp_list_get_name, Mock.gp_list_get_value,
    Mock.gp_list_find_by_name, Mock.gp_file_get_data_and_size, Mock.gp_file_get_mime_type,
    Mock.gp_file_get_name, Mock.gp_file_get_mtime, Mock.checkList, Mock.checkFile,
    GP_ERROR_BAD_PARAMETERS]

/-- C7: over every native layer that answers the null handle with an error
code, every read operation on a wrapper whose pointer is null (`count`,
`getName`, `getValue`, `findByName`, `getPair`, `getPairByName` on a list
wrapper; `getDataAndSize`, `getMimeType`, `getFileName`, `getMtime` on a file
wrapper) ends by throwing the library error that the response translator
raises for that native code, labelled with the first native call of the
operation (for `getPair`, the lookup the compiler evaluates first); so it
neither returns a value nor reads an unset out-parameter. -/
theorem read_on_null_wrapper_throws {σ : Type} (N : NativeLayer σ) (hN : N.RejectsNull)
    (w : World σ) (l f : Addr) :
    (w.m_cameraList l = nullptr →
      (CameraListWrapper.count N l w).1 = Outcome.thrown
        (gphoto2_exception.mk (N.gp_list_count nullptr w.native).1 "gp_list_count") ∧
      (∀ index, (CameraListWrapper.getName N l index w).1 = Outcome.thrown
        (gphoto2_exception.mk (N.gp_list_get_name nullptr index w.native).1.1
          "gp_list_get_name")) ∧
      (∀ index, (CameraListWrapper.getValue N l index w).1 = Outcome.thrown
        (gphoto2_exception.mk (N.gp_list_get_value nullptr index w.native).1.1
          "gp_list_get_value")) ∧
      (∀ name, (CameraListWrapper.findByName N l name w).1 = Outcome.thrown
        (gphoto2_exception.mk (N.gp_list_find_by_name nullptr (c_str name) w.native).1.1
          "gp_list_find_by_name")) ∧
      (∀ index, (CameraListWrapper.getPair N ArgOrder.leftToRight l index w).1 =
        Outcome.thrown (gphoto2_exception.mk
          (N.gp_list_get_name nullptr index w.native).1.1 "gp_list_get_name")) ∧
      (∀ index, (CameraListWrapper.getPair N ArgOrder.rightToLeft l index w).1 =
        Outcome.thrown (gphoto2_exception.mk
          (N.gp_list_get_value nullptr index w.native).1.1 "gp_list_get_value")) ∧
      (∀ order name, (CameraListWrapper.getPairByName N order l name w).1 = Outcome.thrown
        (gphoto2_exception.mk (N.gp_list_find_by_name nullptr (c_str name) w.native).1.1
          "gp_list_find_by_name"))) ∧
    (w.m_cameraFile f = nullptr →
      (CameraFileWrapper.getDataAndSize N f w).1 = Outcome.thrown
        (gphoto2_exception.mk (N.gp_file_get_data_and_size nullptr w.native).1.1
          "gp_file_get_data_and_size") ∧
      (CameraFileWrapper.getMimeType N f w).1 = Outcome.thrown
        (gphoto2_exception.mk (N.gp_file_get_mime_type nullptr w.native).1.1
          "gp_file_get_mime_type") ∧
      (CameraFileWrapper.getFileName N f w).1 = Outcome.thrown
        (gphoto2_exception.mk (N.gp_file_get_name nullptr w.native).1.1
          "gp_file_get_name") ∧
      (CameraFileWrapper.getMtime N f w).1 = Outcome.thrown
        (gphoto2_exception.mk (N.gp_file_get_mtime nullptr w.native).1.1
          "gp_file_get_mtime")) := by
  obtain ⟨h1, h2, h3, h4, h5, h6, h7, h8⟩ := hN w.native
  constructor
  · intro hl
    refine ⟨?_, ?_, ?_, ?_, ?_, ?_, ?_⟩
    · simp [CameraListWrapper.count, Exec.bind, get_m_cameraList, hl, nativeCall,
        checkResponse, h1, throwException]
    · intro index
      simp [CameraListWrapper.getName, Exec.bind, get_m_cameraList, hl, nativeCall,
        checkResponse, h2 index, throwException]
    · intro index
      simp [CameraListWrapper.getValue, Exec.bind, get_m_cameraList, hl, nativeCall,
        checkResponse, h3 index, throwException]
    · intro name
      simp [CameraListWrapper.findByName, Exec.bind, get_m_cameraList, hl, nativeCall,
        checkResponse, h4 (c_str name), throwException]
    · intro index
      simp [CameraListWrapper.getPair, CameraListWrapper.makePairOfNameAndValue,
        CameraListWrapper.getName, Exec.bind, get_m_cameraList, hl, nativeCall,
        checkResponse, h2 index, throwException]
    · intro index
      simp [CameraListWrapper.getPair, CameraListWrapper.makePairOfNameAndValue,
        CameraListWrapper.getValue, Exec.bind, get_m_cameraList, hl, nativeCall,
        checkResponse, h3 index, throwException]
    · intro order name
      simp [CameraListWrapper.getPairByName, CameraListWrapper.findByName, Exec.bind,
        get_m_cameraList, hl, nativeCall, checkResponse, h4 (c_str name), throwException]
  · intro hf
    refine ⟨?_, ?_, ?_, ?_⟩
    · simp [CameraFileWrapper.getDataAndSize, Exec.bind, get_m_cameraFile, hf, nativeCall,
        checkResponse, h5, throwException]
    · simp [CameraFileWrapper.getMimeType, Exec.bind, get_m_cameraFile, hf, nativeCall,
        checkResponse, h6, throwException]
    · simp [CameraFileWrapper.getFileName, Exec.bind, get_m_cameraFile, hf, nativeCall,
        checkResponse, h7, throwException]
    · simp [CameraFileWrapper.getMtime, Exec.bind, get_m_cameraFile, hf, nativeCall,
        checkResponse, h8, throwException]

/-- C7 (witness): on the mock, after the list wrapper at address 1 of
`twoLists` was moved into a new object at address 2, `count()` on the
moved-from wrapper throws the library error for the bad-parameters code. -/
theorem read_on_null_wrapper_witness :
    mock.RejectsNull ∧
    (CameraListWrapper.moveCtor mock 2 1 twoLists).2.m_cameraList 1 = nullptr ∧
    (CameraListWrapper.count mock 1 (CameraListWrapper.moveCtor mock 2 1 twoLists).2).1 =
      Outcome.thrown (gphoto2_exception.mk GP_ERROR_BAD_PARAMETERS "gp_list_count") :=
  ⟨mock_rejectsNull, rfl,
    ((read_on_null_wrapper_throws mock mock_rejectsNull
      (CameraListWrapper.moveCtor mock 2 1 twoLists).2 1 0).1 rfl).1⟩

/-! ## The list accessors on the mock -/

theorem Mock.findBackwards_some (es : List (String × String)) (nm : String) (k i : Nat)
    (h : Mock.findBackwards es nm k = some i) :
    i < k ∧ (es.get? i).map Prod.fst = some nm := by
  induction k with
  | zero => simp [Mock.findBackwards] at h
  | succ k ih =>
    by_cases hk : (es.get? k).map Prod.fst = some nm
    · simp only [Mock.findBackwards, hk, if_true, Option.some.injEq] at h
      subst h
      exact ⟨Nat.lt_succ_self _, hk⟩
    · simp only [Mock.findBackwards, hk, if_false] at h
      exact ⟨Nat.lt_succ_of_lt (ih h).1, (ih h).2⟩

theorem Mock.findBackwards_none (es : List (String × String)) (nm : String) (k : Nat)
    (h : Mock.findBackwards es nm k = none) :
    ∀ i, i < k → (es.get? i).map Prod.fst ≠ some nm := by
  induction k with
  | zero => intro i hi; omega
  | succ k ih =>
    by_cases hk : (es.get? k).map Prod.fst = some nm
    · simp only [Mock.findBackwards] at h
      rw [if_pos hk] at h
      exact absurd h (by simp)
    · simp only [Mock.findBackwards, hk, if_false] at h
      intro i hi
      by_cases hik : i = k
      · subst hik; exact hk
      · exact ih h i (by omega)

theorem CameraListWrapper.count_mock (w : World MockNative) (this : Addr) :
    (CameraListWrapper.count mock this w).1 =
      match Mock.checkList w.native (w.m_cameraList this) with
      | none => Outcome.thrown (gphoto2_exception.mk GP_ERROR_BAD_PARAMETERS "gp_list_count")
      | some h => Outcome.returned ((w.native.lists h).entries.length : Int) := by
  cases hc : Mock.checkList w.native (w.m_cameraList this) with
  | none =>
    simp [CameraListWrapper.count, Exec.bind, get_m_cameraList, nativeCall, mock,
      Mock.gp_list_count, hc, checkResponse, GP_ERROR_BAD_PARAMETERS, throwException]
  | some h =>
    have hlen : ¬ ((w.native.lists h).entries.length : Int) < 0 := by omega
    simp [CameraListWrapper.count, Exec.bind, get_m_cameraList, nativeCall, mock,
      Mock.gp_list_count, hc, checkResponse, Exec.pure, hlen]

theorem CameraListWrapper.getName_mock (w : World MockNative) (this : Addr) (index : Int) :
    (CameraListWrapper.getName mock this index w).1 =
      match Mock.checkList w.native (w.m_cameraList this) with
      | none => Outcome.thrown
          (gphoto2_exception.mk GP_ERROR_BAD_PARAMETERS "gp_list_get_name")
      | some h =>
        if 0 ≤ index ∧ index < ((w.native.lists h).entries.length : Int) then
          Outcome.returned
            ((((w.native.lists h).entries.get? index.toNat).map Prod.fst).getD "")
        else Outcome.thrown
          (gphoto2_exception.mk GP_ERROR_BAD_PARAMETERS "gp_list_get_name") := by
  cases hc : Mock.checkList w.native (w.m_cameraList this) with
  | none =>
    simp [CameraListWrapper.getName, Exec.bind, get_m_cameraList, nativeCall, mock,
      Mock.gp_list_get_name, hc, checkResponse, GP_ERROR_BAD_PARAMETERS, throwException]
  | some h =>
    by_cases hr : 0 ≤ index ∧ index < ((w.native.lists h).entries.length : Int)
    · cases hg : (w.native.lists h).entries.get? index.toNat <;>
        simp [CameraListWrapper.getName, Exec.bind, get_m_cameraList, nativeCall, mock,
          Mock.gp_list_get_name, hc, checkResponse, GP_OK, Exec.pure, hr, hg]
    · simp [CameraListWrapper.getName, Exec.bind, get_m_cameraList, nativeCall, mock,
        Mock.gp_list_get_name, hc, checkResponse, GP_ERROR_BAD_PARAMETERS, throwException,
        hr]

theorem CameraListWrapper.getValue_mock (w : World MockNative) (this : Addr) (index : Int) :
    (CameraListWrapper.getValue mock this index w).1 =
      match Mock.checkList w.native (w.m_cameraList this) with
      | none => Outcome.thrown
          (gphoto2_exception.mk GP_ERROR_BAD_PARAMETERS "gp_list_get_value")
      | some h =>
        if 0 ≤ index ∧ index < ((w.native.lists h).entries.length : Int) then
          Outcome.returned
            ((((w.native.lists h).entries.get? index.toNat).map Prod.snd).getD "")
        else Outcome.thrown
          (gphoto2_exception.mk GP_ERROR_BAD_PARAMETERS "gp_list_get_value") := by
  cases hc : Mock.checkList w.native (w.m_cameraList this) with
  | none =>
    simp [CameraListWrapper.getValue, Exec.bind, get_m_cameraList, nativeCall, mock,
      Mock.gp_list_get_value, hc, checkResponse, GP_ERROR_BAD_PARAMETERS, throwException]
  | some h =>
    by_cases hr : 0 ≤ index ∧ index < ((w.native.lists h).entries.length : Int)
    · cases hg : (w.native.lists h).entries.get? index.toNat <;>
        simp [CameraListWrapper.getValue, Exec.bind, get_m_cameraList, nativeCall, mock,
          Mock.gp_list_get_value, hc, checkResponse, GP_OK, Exec.pure, hr, hg]
    · simp [CameraListWrapper.getValue, Exec.bind, get_m_cameraList, nativeCall, mock,
        Mock.gp_list_get_value, hc, checkResponse, GP_ERROR_BAD_PARAMETERS, throwException,
        hr]

theorem CameraListWrapper.findByName_mock (w : World MockNative) (this : Addr)
    (name : String) :
    (CameraListWrapper.findByName mock this name w).1 =
      match Mock.checkList w.native (w.m_cameraList this) with
      | none => Outcome.thrown
          (gphoto2_exception.mk GP_ERROR_BAD_PARAMETERS "gp_list_find_by_name")
      | some h =>
        match Mock.findBackwards (w.native.lists h).entries (c_str name)
            (w.native.lists h).entries.length with
        | some i => Outcome.returned (i : Int)
        | none => Outcome.thrown (gphoto2_exception.mk GP_ERROR "gp_list_find_by_name") := by
  cases hc : Mock.checkList w.native (w.m_cameraList this) with
  | none =>
    simp [CameraListWrapper.findByName, Exec.bind, get_m_cameraList, nativeCall, mock,
      Mock.gp_list_find_by_name, hc, checkResponse, GP_ERROR_BAD_PARAMETERS, throwException]
  | some h =>
    cases hfb : Mock.findBackwards (w.native.lists h).entries (c_str name)
        (w.native.lists h).entries.length with
    | none =>
      simp [CameraListWrapper.findByName, Exec.bind, get_m_cameraList, nativeCall, mock,
        Mock.gp_list_find_by_name, hc, checkResponse, GP_ERROR, throwException, hfb]
    | some i =>
      simp [CameraListWrapper.findByName, Exec.bind, get_m_cameraList, nativeCall, mock,
        Mock.gp_list_find_by_name, hc, checkResponse, GP_OK, Exec.pure, hfb]

theorem Mock.checkList_some (s : MockNative) (p : Ptr) (h : Nat)
    (hc : Mock.checkList s p = some h) : p = some h ∧ (s.lists h).ref_count ≠ 0 := by
  cases p with
  | none => simp [Mock.checkList] at hc
  | some q =>
    by_cases hv : (s.lists q).ref_count = 0
    · simp [Mock.checkList, hv] at hc
    · simp only [Mock.checkList, hv, if_false, Option.some.injEq] at hc
      subst hc
      exact ⟨rfl, hv⟩

theorem CameraListWrapper.append_mock (w : World MockNative) (this : Addr)
    (name value : String) (h : Nat)
    (hc : Mock.checkList w.native (w.m_cameraList this) = some h) :
    (CameraListWrapper.append mock this name value w).1 = Outcome.returned () ∧
    (CameraListWrapper.append mock this name value w).2.m_cameraList = w.m_cameraList ∧
    Mock.checkList (CameraListWrapper.append mock this name value w).2.native
      (w.m_cameraList this) = some h ∧
    ((CameraListWrapper.append mock this name value w).2.native.lists h).entries =
      (w.native.lists h).entries ++ [(c_str name, c_str value)] := by
  obtain ⟨hp, hv⟩ := Mock.checkList_some _ _ _ hc
  simp [CameraListWrapper.append, Exec.bind, get_m_cameraList, nativeCall, mock,
    Mock.gp_list_append, hc, checkResponse, GP_OK, Exec.pure, Mock.setList, hp,
    Mock.checkList, hv]

theorem CameraListWrapper.reset_mock (w : World MockNative) (this : Addr) (h : Nat)
    (hc : Mock.checkList w.native (w.m_cameraList this) = some h) :
    (CameraListWrapper.reset mock this w).1 = Outcome.returned () ∧
    (CameraListWrapper.reset mock this w).2.m_cameraList = w.m_cameraList ∧
    Mock.checkList (CameraListWrapper.reset mock this w).2.native
      (w.m_cameraList this) = some h ∧
    ((CameraListWrapper.reset mock this w).2.native.lists h).entries = [] := by
  obtain ⟨hp, hv⟩ := Mock.checkList_some _ _ _ hc
  simp [CameraListWrapper.reset, Exec.bind, get_m_cameraList, nativeCall, mock,
    Mock.gp_list_reset, hc, checkResponse, GP_OK, Exec.pure, Mock.setList, hp,
    Mock.checkList, hv]

theorem CameraListWrapper.reset_mock_null (w : World MockNative) (this : Addr)
    (hc : Mock.checkList w.native (w.m_cameraList this) = none) :
    (CameraListWrapper.reset mock this w).1 =
      Outcome.thrown (gphoto2_exception.mk GP_ERROR_BAD_PARAMETERS "gp_list_reset") := by
  simp [CameraListWrapper.reset, Exec.bind, get_m_cameraList, nativeCall, mock,
    Mock.gp_list_reset, hc, checkResponse, GP_ERROR_BAD_PARAMETERS, throwException]

theorem c_str_of_no_nul (s : String) (h : Char.ofNat 0 ∉ s.data) : c_str s = s := by
  have : s.data.takeWhile (fun c => decide (c ≠ Char.ofNat 0)) = s.data := by
    rw [List.takeWhile_eq_self_iff]
    intro c hc
    simp only [ne_eq, decide_not, Bool.not_eq_eq_eq_not, Bool.not_true, decide_eq_false_iff_not]
    intro e
    exact h (e ▸ hc)
  unfold c_str
  rw [this]

/-! ## C10: index lookup -/

/-- C10: for every list wrapper on the mock native layer and every integer
index, `getName(index)` returns a string exactly when `count()` returns some
`n` with `0 ≤ index < n`, and so does `getValue(index)`; for every other index,
negative ones included, both throw the library error instead of returning a
string. -/
theorem index_lookup_succeeds_only_in_range (w : World MockNative) (this : Addr)
    (index : Int) :
    ((∃ s, (CameraListWrapper.getName mock this index w).1 = Outcome.returned s) ↔
      ∃ n, (CameraListWrapper.count mock this w).1 = Outcome.returned n ∧
        0 ≤ index ∧ index < n) ∧
    ((∃ s, (CameraListWrapper.getValue mock this index w).1 = Outcome.returned s) ↔
      ∃ n, (CameraListWrapper.count mock this w).1 = Outcome.returned n ∧
        0 ≤ index ∧ index < n) ∧
    ((¬ ∃ n, (CameraListWrapper.count mock this w).1 = Outcome.returned n ∧
        0 ≤ index ∧ index < n) →
      (CameraListWrapper.getName mock this index w).1 = Outcome.thrown
        (gphoto2_exception.mk GP_ERROR_BAD_PARAMETERS "gp_list_get_name") ∧
      (CameraListWrapper.getValue mock this index w).1 = Outcome.thrown
        (gphoto2_exception.mk GP_ERROR_BAD_PARAMETERS "gp_list_get_value")) := by
  rw [CameraListWrapper.getName_mock, CameraListWrapper.getValue_mock,
    CameraListWrapper.count_mock]
  cases hc : Mock.checkList w.native (w.m_cameraList this) with
  | none => simp
  | some h =>
    by_cases hr : 0 ≤ index ∧ index < ((w.native.lists h).entries.length : Int)
    · simp [hr]
    · simp only [hr, if_false]
      refine ⟨?_, ?_, ?_⟩
      · constructor
        · rintro ⟨s, hs⟩; cases hs
        · rintro ⟨n, hn, h0, h1⟩
          cases hn
          exact absurd ⟨h0, h1⟩ hr
      · constructor
        · rintro ⟨s, hs⟩; cases hs
        · rintro ⟨n, hn, h0, h1⟩
          cases hn
          exact absurd ⟨h0, h1⟩ hr
      · intro _
        exact ⟨trivial, trivial⟩

/-- C10 (witness): in `abList`, `count()` is 2, so `getName(1)` returns a
string while `getName(2)` and `getName(-1)` throw. -/
theorem index_lookup_witness :
    (∃ n, (CameraListWrapper.count mock 0 abList).1 = Outcome.returned n ∧
      (0 : Int) ≤ 1 ∧ 1 < n) ∧
    (∃ s, (CameraListWrapper.getName mock 0 1 abList).1 = Outcome.returned s) ∧
    (¬ ∃ n, (CameraListWrapper.count mock 0 abList).1 = Outcome.returned n ∧
      (0 : Int) ≤ -1 ∧ -1 < n) ∧
    (CameraListWrapper.getName mock 0 (-1) abList).1 = Outcome.thrown
      (gphoto2_exception.mk GP_ERROR_BAD_PARAMETERS "gp_list_get_name") :=
  ⟨⟨2, by decide, by decide, by decide⟩,
    (index_lookup_succeeds_only_in_range abList 0 1).1.mpr
      ⟨2, by decide, by decide, by decide⟩,
    fun ⟨_, _, h, _⟩ => absurd h (by decide),
    ((index_lookup_succeeds_only_in_range abList 0 (-1)).2.2
      (fun ⟨_, _, h, _⟩ => absurd h (by decide))).1⟩

/-! ## C8: find by name -/

theorem getD_map_fst_of_lt (es : List (String × String)) (k : Nat) (hk : k < es.length) :
    (es.get? k).map Prod.fst = some (((es.get? k).map Prod.fst).getD "") := by
  have : es.get? k = some (es.get ⟨k, hk⟩) := List.get?_eq_get hk
  rw [this]
  rfl

/-- C8 (counterexample): in `abList`, whose entries are named "a" and "b",
`findByName` on the three-character name made of `b`, NUL and `x` succeeds with
index 1, although no entry has that name: `count()` is 2 and `getName` returns
"a" and "b", both different from the name. -/
theorem findByName_succeeds_on_name_with_nul :
    (CameraListWrapper.findByName mock 0 nameWithNul abList).1 = Outcome.returned 1 ∧
    (CameraListWrapper.count mock 0 abList).1 = Outcome.returned 2 ∧
    (CameraListWrapper.getName mock 0 0 abList).1 = Outcome.returned "a" ∧
    (CameraListWrapper.getName mock 0 1 abList).1 = Outcome.returned "b" ∧
    "a" ≠ nameWithNul ∧ "b" ≠ nameWithNul := by
  refine ⟨?_, ?_, ?_, ?_, ?_, ?_⟩ <;> decide

/-- C8 (amended): for every list wrapper on the mock native layer and every
name, `findByName(name)` returns an index if and only if some entry, at an
index `j` with `0 ≤ j < count()`, has the name `name.c_str()` (the name cut at
its first NUL character, which is `name` itself when it contains none); a
returned index `i` satisfies `0 ≤ i < count()` and `getName(i)` is that C
string; and when no entry has it, `findByName` throws the library error.  After
`append("a","1")` and `append("b","2")` on an empty list, `findByName("b")`
is 1 and `getValue(1)` is "2". -/
theorem findByName_finds_entry_named_c_str (w : World MockNative) (this : Addr)
    (name : String) :
    ((∃ i, (CameraListWrapper.findByName mock this name w).1 = Outcome.returned i) ↔
      ∃ j n, (CameraListWrapper.count mock this w).1 = Outcome.returned n ∧
        0 ≤ j ∧ j < n ∧
        (CameraListWrapper.getName mock this j w).1 = Outcome.returned (c_str name)) ∧
    (∀ i, (CameraListWrapper.findByName mock this name w).1 = Outcome.returned i →
      ∃ n, (CameraListWrapper.count mock this w).1 = Outcome.returned n ∧
        0 ≤ i ∧ i < n ∧
        (CameraListWrapper.getName mock this i w).1 = Outcome.returned (c_str name)) ∧
    ((¬ ∃ j n, (CameraListWrapper.count mock this w).1 = Outcome.returned n ∧
        0 ≤ j ∧ j < n ∧
        (CameraListWrapper.getName mock this j w).1 = Outcome.returned (c_str name)) →
      ∃ e, (CameraListWrapper.findByName mock this name w).1 = Outcome.thrown e) ∧
    (Char.ofNat 0 ∉ name.data → c_str name = name) ∧
    (CameraListWrapper.findByName mock 0 "b" abList).1 = Outcome.returned 1 ∧
    (CameraListWrapper.getValue mock 0 1 abList).1 = Outcome.returned "2" := by
  have key : ∀ i, (CameraListWrapper.findByName mock this name w).1 = Outcome.returned i →
      ∃ n, (CameraListWrapper.count mock this w).1 = Outcome.returned n ∧
        0 ≤ i ∧ i < n ∧
        (CameraListWrapper.getName mock this i w).1 = Outcome.returned (c_str name) := by
    intro i hi
    rw [CameraListWrapper.findByName_mock] at hi
    rw [CameraListWrapper.count_mock]
    rw [CameraListWrapper.getName_mock]
    cases hc : Mock.checkList w.native (w.m_cameraList this) with
    | none => simp [hc] at hi
    | some h =>
      simp only [hc] at hi ⊢
      cases hfb : Mock.findBackwards (w.native.lists h).entries (c_str name)
          (w.native.lists h).entries.length with
      | none => simp [hfb] at hi
      | some k =>
        simp only [hfb, Outcome.returned.injEq] at hi
        subst hi
        obtain ⟨hk, hname⟩ := Mock.findBackwards_some _ _ _ _ hfb
        refine ⟨_, rfl, by omega, by omega, ?_⟩
        have hr : 0 ≤ (k : Int) ∧ (k : Int) < ((w.native.lists h).entries.length : Int) := by
          omega
        simp only [hr, and_self, if_true, Int.toNat_ofNat, hname, Option.getD_some]
  have absent : (¬ ∃ j n, (CameraListWrapper.count mock this w).1 = Outcome.returned n ∧
        0 ≤ j ∧ j < n ∧
        (CameraListWrapper.getName mock this j w).1 = Outcome.returned (c_str name)) →
      ∃ e, (CameraListWrapper.findByName mock this name w).1 = Outcome.thrown e := by
    intro hno
    cases hf : (CameraListWrapper.findByName mock this name w).1 with
    | returned i =>
      obtain ⟨n, h1, h2, h3, h4⟩ := key i hf
      exact absurd ⟨i, n, h1, h2, h3, h4⟩ hno
    | thrown e => exact ⟨e, rfl⟩
    | undefinedBehaviour =>
      rw [CameraListWrapper.findByName_mock] at hf
      cases hc : Mock.checkList w.native (w.m_cameraList this) with
      | none => simp [hc] at hf
      | some h =>
        simp only [hc] at hf
        cases hfb : Mock.findBackwards (w.native.lists h).entries (c_str name)
            (w.native.lists h).entries.length <;> simp [hfb] at hf
  refine ⟨⟨?_, ?_⟩, key, absent, c_str_of_no_nul name, by decide, by decide⟩
  · rintro ⟨i, hi⟩
    obtain ⟨n, h1, h2, h3, h4⟩ := key i hi
    exact ⟨i, n, h1, h2, h3, h4⟩
  · rintro ⟨j, n, hn, h0, h1, hg⟩
    rw [CameraListWrapper.findByName_mock]
    rw [CameraListWrapper.count_mock] at hn
    rw [CameraListWrapper.getName_mock] at hg
    cases hc : Mock.checkList w.native (w.m_cameraList this) with
    | none => simp [hc] at hn
    | some h =>
      simp only [hc, Outcome.returned.injEq] at hn hg ⊢
      subst hn
      have hr : 0 ≤ j ∧ j < ((w.native.lists h).entries.length : Int) := ⟨h0, h1⟩
      simp only [hr, and_self, if_true, Outcome.returned.injEq] at hg
      have hlt : j.toNat < (w.native.lists h).entries.length := by omega
      have hm := getD_map_fst_of_lt (w.native.lists h).entries j.toNat hlt
      rw [hg] at hm
      cases hfb : Mock.findBackwards (w.native.lists h).entries (c_str name)
          (w.native.lists h).entries.length with
      | some k => exact ⟨k, rfl⟩
      | none => exact absurd hm (Mock.findBackwards_none _ _ _ hfb j.toNat hlt)

/-- C8 (witness): in `abList` the name "b" contains no NUL character, the
entry at index 1 has it, and `findByName("b")` returns an index. -/
theorem findByName_witness :
    c_str "b" = "b" ∧
    (∃ j n, (CameraListWrapper.count mock 0 abList).1 = Outcome.returned n ∧
      0 ≤ j ∧ j < n ∧
      (CameraListWrapper.getName mock 0 j abList).1 = Outcome.returned (c_str "b")) ∧
    (∃ i, (CameraListWrapper.findByName mock 0 "b" abList).1 = Outcome.returned i) :=
  ⟨(findByName_finds_entry_named_c_str abList 0 "b").2.2.2.1 (by decide),
    ⟨1, 2, by decide, by decide, by decide, by decide⟩,
    (findByName_finds_entry_named_c_str abList 0 "b").1.mpr
      ⟨1, 2, by decide, by decide, by decide, by decide⟩⟩

/-! ## C9: append and reset -/

/-- C9 (counterexample): on a freshly constructed, empty list wrapper,
`append` of the three-character name made of `b`, NUL and `x` succeeds and
`count()` becomes 1, but `getName(0)` returns "b", which is not the name that
was appended. -/
theorem append_truncates_name_with_nul :
    (CameraListWrapper.count mock 0 (CameraListWrapper.ctor mock 0 World.initial).2).1 =
      Outcome.returned 0 ∧
    (CameraListWrapper.append mock 0 nameWithNul "1"
      (CameraListWrapper.ctor mock 0 World.initial).2).1 = Outcome.returned () ∧
    (CameraListWrapper.count mock 0 (CameraListWrapper.append mock 0 nameWithNul "1"
      (CameraListWrapper.ctor mock 0 World.initial).2).2).1 = Outcome.returned 1 ∧
    (CameraListWrapper.getName mock 0 0 (CameraListWrapper.append mock 0 nameWithNul "1"
      (CameraListWrapper.ctor mock 0 World.initial).2).2).1 = Outcome.returned "b" ∧
    (CameraListWrapper.getName mock 0 0 (CameraListWrapper.append mock 0 nameWithNul "1"
      (CameraListWrapper.ctor mock 0 World.initial).2).2).1 ≠
      Outcome.returned nameWithNul := by
  refine ⟨?_, ?_, ?_, ?_, ?_⟩ <;> decide

/-- C9 (amended): for every list wrapper on the mock native layer whose
`count()` is `n`, and every name and value, a successful `append(name, value)`
makes `count()` equal `n + 1`, `getName(n)` equal `name.c_str()` and
`getValue(n)` equal `value.c_str()` (the strings cut at their first NUL
character, which are `name` and `value` themselves when they contain none), and
leaves `getName(i)` and `getValue(i)` unchanged for every `i < n`; and after a
successful `reset()`, `count()` is 0. -/
theorem append_adds_last_entry_and_reset_clears (w : World MockNative) (this : Addr)
    (name value : String) :
    (∀ n, (CameraListWrapper.count mock this w).1 = Outcome.returned n →
      (CameraListWrapper.append mock this name value w).1 = Outcome.returned () →
      (CameraListWrapper.count mock this
        (CameraListWrapper.append mock this name value w).2).1 = Outcome.returned (n + 1) ∧
      (CameraListWrapper.getName mock this n
        (CameraListWrapper.append mock this name value w).2).1 =
          Outcome.returned (c_str name) ∧
      (CameraListWrapper.getValue mock this n
        (CameraListWrapper.append mock this name value w).2).1 =
          Outcome.returned (c_str value) ∧
      (∀ i, i < n →
        (CameraListWrapper.getName mock this i
          (CameraListWrapper.append mock this name value w).2).1 =
            (CameraListWrapper.getName mock this i w).1 ∧
        (CameraListWrapper.getValue mock this i
          (CameraListWrapper.append mock this name value w).2).1 =
            (CameraListWrapper.getValue mock this i w).1)) ∧
    ((CameraListWrapper.reset mock this w).1 = Outcome.returned () →
      (CameraListWrapper.count mock this (CameraListWrapper.reset mock this w).2).1 =
        Outcome.returned 0) ∧
    (Char.ofNat 0 ∉ name.data → c_str name = name) ∧
    (Char.ofNat 0 ∉ value.data → c_str value = value) := by
  refine ⟨?_, ?_, c_str_of_no_nul name, c_str_of_no_nul value⟩
  · intro n hn _
    rw [CameraListWrapper.count_mock] at hn
    cases hc : Mock.checkList w.native (w.m_cameraList this) with
    | none => simp [hc] at hn
    | some h =>
      simp only [hc, Outcome.returned.injEq] at hn
      subst hn
      obtain ⟨_, a2, a3, a4⟩ := CameraListWrapper.append_mock w this name value h hc
      have hlen : ((w.native.lists h).entries ++ [(c_str name, c_str value)]).length =
          (w.native.lists h).entries.length + 1 := by simp
      refine ⟨?_, ?_, ?_, ?_⟩
      · rw [CameraListWrapper.count_mock, a2, a3]
        simp only [a4, hlen]
        rfl
      · rw [CameraListWrapper.getName_mock, a2, a3]
        simp only [a4, hlen]
        have hr : (0 : Int) ≤ ((w.native.lists h).entries.length : Int) ∧
            ((w.native.lists h).entries.length : Int) <
              (((w.native.lists h).entries.length + 1 : Nat) : Int) := by omega
        simp only [hr, and_self, if_true, Int.toNat_ofNat]
        simp
      · rw [CameraListWrapper.getValue_mock, a2, a3]
        simp only [a4, hlen]
        have hr : (0 : Int) ≤ ((w.native.lists h).entries.length : Int) ∧
            ((w.native.lists h).entries.length : Int) <
              (((w.native.lists h).entries.length + 1 : Nat) : Int) := by omega
        simp only [hr, and_self, if_true, Int.toNat_ofNat]
        simp
      · intro i h1
        by_cases h0 : 0 ≤ i
        · have hlt : i.toNat < (w.native.lists h).entries.length := by omega
          have hr : 0 ≤ i ∧ i < ((w.native.lists h).entries.length : Int) := ⟨h0, h1⟩
          have hr' : 0 ≤ i ∧ i < (((w.native.lists h).entries.length + 1 : Nat) : Int) := by
            omega
          have hget :
              ((w.native.lists h).entries ++ [(c_str name, c_str value)]).get? i.toNat =
                (w.native.lists h).entries.get? i.toNat := by
            simp only [List.get?_eq_getElem?]
            exact List.getElem?_append_left hlt
          constructor
          · rw [CameraListWrapper.getName_mock, CameraListWrapper.getName_mock, a2, a3, hc]
            simp only [a4, hlen, hr, hr', and_self, if_true, hget]
          · rw [CameraListWrapper.getValue_mock, CameraListWrapper.getValue_mock, a2, a3, hc]
            simp only [a4, hlen, hr, hr', and_self, if_true, hget]
        · have hr : ¬ (0 ≤ i ∧ i < ((w.native.lists h).entries.length : Int)) :=
            fun e => h0 e.1
          have hr' :
              ¬ (0 ≤ i ∧ i < (((w.native.lists h).entries.length + 1 : Nat) : Int)) :=
            fun e => h0 e.1
          constructor
          · rw [CameraListWrapper.getName_mock, CameraListWrapper.getName_mock, a2, a3, hc]
            simp only [a4, hlen, hr, hr', if_false]
          · rw [CameraListWrapper.getValue_mock, CameraListWrapper.getValue_mock, a2, a3, hc]
            simp only [a4, hlen, hr, hr', if_false]
  · intro hr
    cases hc : Mock.checkList w.native (w.m_cameraList this) with
    | none =>
      rw [CameraListWrapper.reset_mock_null w this hc] at hr
      cases hr
    | some h =>
      obtain ⟨_, a2, a3, a4⟩ := CameraListWrapper.reset_mock w this h hc
      rw [CameraListWrapper.count_mock, a2, a3]
      simp only [a4]
      rfl

/-- C9 (witness): in `abList`, `count()` is 2 and `append("c","3")` succeeds;
afterwards `count()` is 3 and `getName(2)` is "c". -/
theorem append_witness :
    (CameraListWrapper.count mock 0 abList).1 = Outcome.returned 2 ∧
    (CameraListWrapper.append mock 0 "c" "3" abList).1 = Outcome.returned () ∧
    (CameraListWrapper.count mock 0
      (CameraListWrapper.append mock 0 "c" "3" abList).2).1 = Outcome.returned (2 + 1) ∧
    (CameraListWrapper.getName mock 0 2
      (CameraListWrapper.append mock 0 "c" "3" abList).2).1 = Outcome.returned (c_str "c") :=
  ⟨by decide, by decide,
    ((append_adds_last_entry_and_reset_clears abList 0 "c" "3").1 2 (by decide)
      (by decide)).1,
    ((append_adds_last_entry_and_reset_clears abList 0 "c" "3").1 2 (by decide)
      (by decide)).2.1⟩

/-! ## C11: paired lookup -/

theorem Exec.bind_fst {σ α β : Type} (m : Exec σ α) (f : α → Exec σ β) (w : World σ) :
    (Exec.bind m f w).1 =
      match (m w).1 with
      | Outcome.returned a => (f a (m w).2).1
      | Outcome.thrown e => Outcome.thrown e
      | Outcome.undefinedBehaviour => Outcome.undefinedBehaviour := by
  unfold Exec.bind
  rcases m w with ⟨o, w'⟩
  cases o <;> rfl

theorem CameraListWrapper.getName_world (w : World MockNative) (this : Addr) (index : Int) :
    (CameraListWrapper.getName mock this index w).2.native = w.native ∧
    (CameraListWrapper.getName mock this index w).2.m_cameraList = w.m_cameraList := by
  cases hc : Mock.checkList w.native (w.m_cameraList this) with
  | none =>
    simp [CameraListWrapper.getName, Exec.bind, get_m_cameraList, nativeCall, mock,
      Mock.gp_list_get_name, hc, checkResponse, GP_ERROR_BAD_PARAMETERS, throwException]
  | some h =>
    by_cases hr : 0 ≤ index ∧ index < ((w.native.lists h).entries.length : Int)
    · cases hg : (w.native.lists h).entries.get? index.toNat <;>
        simp [CameraListWrapper.getName, Exec.bind, get_m_cameraList, nativeCall, mock,
          Mock.gp_list_get_name, hc, checkResponse, GP_OK, Exec.pure, hr, hg]
    · simp [CameraListWrapper.getName, Exec.bind, get_m_cameraList, nativeCall, mock,
        Mock.gp_list_get_name, hc, checkResponse, GP_ERROR_BAD_PARAMETERS, throwException,
        hr]

theorem CameraListWrapper.getValue_world (w : World MockNative) (this : Addr) (index : Int) :
    (CameraListWrapper.getValue mock this index w).2.native = w.native ∧
    (CameraListWrapper.getValue mock this index w).2.m_cameraList = w.m_cameraList := by
  cases hc : Mock.checkList w.native (w.m_cameraList this) with
  | none =>
    simp [CameraListWrapper.getValue, Exec.bind, get_m_cameraList, nativeCall, mock,
      Mock.gp_list_get_value, hc, checkResponse, GP_ERROR_BAD_PARAMETERS, throwException]
  | some h =>
    by_cases hr : 0 ≤ index ∧ index < ((w.native.lists h).entries.length : Int)
    · cases hg : (w.native.lists h).entries.get? index.toNat <;>
        simp [CameraListWrapper.getValue, Exec.bind, get_m_cameraList, nativeCall, mock,
          Mock.gp_list_get_value, hc, checkResponse, GP_OK, Exec.pure, hr, hg]
    · simp [CameraListWrapper.getValue, Exec.bind, get_m_cameraList, nativeCall, mock,
        Mock.gp_list_get_value, hc, checkResponse, GP_ERROR_BAD_PARAMETERS, throwException,
        hr]

theorem CameraListWrapper.findByName_world (w : World MockNative) (this : Addr)
    (name : String) :
    (CameraListWrapper.findByName mock this name w).2.native = w.native ∧
    (CameraListWrapper.findByName mock this name w).2.m_cameraList = w.m_cameraList := by
  cases hc : Mock.checkList w.native (w.m_cameraList this) with
  | none =>
    simp [CameraListWrapper.findByName, Exec.bind, get_m_cameraList, nativeCall, mock,
      Mock.gp_list_find_by_name, hc, checkResponse, GP_ERROR_BAD_PARAMETERS, throwException]
  | some h =>
    cases hfb : Mock.findBackwards (w.native.lists h).entries (c_str name)
        (w.native.lists h).entries.length with
    | none =>
      simp [CameraListWrapper.findByName, Exec.bind, get_m_cameraList, nativeCall, mock,
        Mock.gp_list_find_by_name, hc, checkResponse, GP_ERROR, throwException, hfb]
    | some i =>
      simp [CameraListWrapper.findByName, Exec.bind, get_m_cameraList, nativeCall, mock,
        Mock.gp_list_find_by_name, hc, checkResponse, GP_OK, Exec.pure, hfb]

theorem CameraListWrapper.getName_of_same (w w' : World MockNative) (this : Addr)
    (index : Int) (hn : w'.native = w.native) (hm : w'.m_cameraList = w.m_cameraList) :
    (CameraListWrapper.getName mock this index w').1 =
      (CameraListWrapper.getName mock this index w).1 := by
  rw [CameraListWrapper.getName_mock, CameraListWrapper.getName_mock, hn, hm]

theorem CameraListWrapper.getValue_of_same (w w' : World MockNative) (this : Addr)
    (index : Int) (hn : w'.native = w.native) (hm : w'.m_cameraList = w.m_cameraList) :
    (CameraListWrapper.getValue mock this index w').1 =
      (CameraListWrapper.getValue mock this index w).1 := by
  rw [CameraListWrapper.getValue_mock, CameraListWrapper.getValue_mock, hn, hm]

theorem CameraListWrapper.makePair_mock (w : World MockNative) (order : ArgOrder)
    (this : Addr) (index : Int) :
    (CameraListWrapper.makePairOfNameAndValue mock this index order w).1 =
      match order with
      | ArgOrder.leftToRight =>
        (match (CameraListWrapper.getName mock this index w).1 with
         | Outcome.returned first =>
           (match (CameraListWrapper.getValue mock this index w).1 with
            | Outcome.returned second => Outcome.returned (first, second)
            | Outcome.thrown e => Outcome.thrown e
            | Outcome.undefinedBehaviour => Outcome.undefinedBehaviour)
         | Outcome.thrown e => Outcome.thrown e
         | Outcome.undefinedBehaviour => Outcome.undefinedBehaviour)
      | ArgOrder.rightToLeft =>
        (match (CameraListWrapper.getValue mock this index w).1 with
         | Outcome.returned second =>
           (match (CameraListWrapper.getName mock this index w).1 with
            | Outcome.returned first => Outcome.returned (first, second)
            | Outcome.thrown e => Outcome.thrown e
            | Outcome.undefinedBehaviour => Outcome.undefinedBehaviour)
         | Outcome.thrown e => Outcome.thrown e
         | Outcome.undefinedBehaviour => Outcome.undefinedBehaviour) := by
  cases order with
  | leftToRight =>
    have hw := CameraListWrapper.getName_world w this index
    have hv := CameraListWrapper.getValue_of_same w
      (CameraListWrapper.getName mock this index w).2 this index hw.1 hw.2
    simp only [CameraListWrapper.makePairOfNameAndValue, Exec.bind_eq]
    rw [Exec.bind_fst]
    cases h1 : (CameraListWrapper.getName mock this index w).1 with
    | returned first =>
      simp only [Exec.bind_eq]
      rw [Exec.bind_fst, hv]
      cases h2 : (CameraListWrapper.getValue mock this index w).1 <;> rfl
    | thrown e => rfl
    | undefinedBehaviour => rfl
  | rightToLeft =>
    have hw := CameraListWrapper.getValue_world w this index
    have hv := CameraListWrapper.getName_of_same w
      (CameraListWrapper.getValue mock this index w).2 this index hw.1 hw.2
    simp only [CameraListWrapper.makePairOfNameAndValue, Exec.bind_eq]
    rw [Exec.bind_fst]
    cases h1 : (CameraListWrapper.getValue mock this index w).1 with
    | returned second =>
      simp only [Exec.bind_eq]
      rw [Exec.bind_fst, hv]
      cases h2 : (CameraListWrapper.getName mock this index w).1 <;> rfl
    | thrown e => rfl
    | undefinedBehaviour => rfl

theorem CameraListWrapper.findByName_returned (w : World MockNative) (this : Addr)
    (name : String) (i : Int)
    (hi : (CameraListWrapper.findByName mock this name w).1 = Outcome.returned i) :
    ∃ h, Mock.checkList w.native (w.m_cameraList this) = some h ∧
      (0 ≤ i ∧ i < ((w.native.lists h).entries.length : Int)) ∧
      ((w.native.lists h).entries.get? i.toNat).map Prod.fst = some (c_str name) := by
  rw [CameraListWrapper.findByName_mock] at hi
  cases hc : Mock.checkList w.native (w.m_cameraList this) with
  | none => simp [hc] at hi
  | some h =>
    simp only [hc] at hi
    cases hfb : Mock.findBackwards (w.native.lists h).entries (c_str name)
        (w.native.lists h).entries.length with
    | none => simp [hfb] at hi
    | some k =>
      simp only [hfb, Outcome.returned.injEq] at hi
      subst hi
      obtain ⟨hk, hname⟩ := Mock.findBackwards_some _ _ _ _ hfb
      refine ⟨h, rfl, by omega, ?_⟩
      simpa using hname

theorem CameraListWrapper.makePair_at_found (w : World MockNative) (order : ArgOrder)
    (this : Addr) (name : String) (i : Int)
    (hi : (CameraListWrapper.findByName mock this name w).1 = Outcome.returned i) :
    ∃ value, (CameraListWrapper.makePairOfNameAndValue mock this i order w).1 =
      Outcome.returned (c_str name, value) := by
  obtain ⟨h, hc, hr, hname⟩ := CameraListWrapper.findByName_returned w this name i hi
  cases hget : (w.native.lists h).entries.get? i.toNat with
  | none =>
    rw [hget] at hname
    cases hname
  | some entry =>
    rw [hget] at hname
    simp only [Option.map_some', Option.some.injEq] at hname
    refine ⟨entry.2, ?_⟩
    rw [CameraListWrapper.makePair_mock, CameraListWrapper.getName_mock,
      CameraListWrapper.getValue_mock]
    simp only [hc, hr, and_self, if_true, hget, Option.map_some', Option.getD_some, hname]
    cases order <;> rfl

theorem CameraListWrapper.makePair_of_same (w w' : World MockNative) (order : ArgOrder)
    (this : Addr) (index : Int) (hn : w'.native = w.native)
    (hm : w'.m_cameraList = w.m_cameraList) :
    (CameraListWrapper.makePairOfNameAndValue mock this index order w').1 =
      (CameraListWrapper.makePairOfNameAndValue mock this index order w).1 := by
  rw [CameraListWrapper.makePair_mock, CameraListWrapper.makePair_mock,
    CameraListWrapper.getName_of_same w w' this index hn hm,
    CameraListWrapper.getValue_of_same w w' this index hn hm]

/-- C11 (counterexample): in `abList`, `getPairByName` on the three-character
name made of `b`, NUL and `x` succeeds, for either evaluation order of the
pair's components, and the first component of the returned pair is "b", not
the name that was asked for. -/
theorem getPairByName_returns_truncated_name :
    (CameraListWrapper.getPairByName mock ArgOrder.leftToRight 0 nameWithNul abList).1 =
      Outcome.returned ("b", "2") ∧
    (CameraListWrapper.getPairByName mock ArgOrder.rightToLeft 0 nameWithNul abList).1 =
      Outcome.returned ("b", "2") ∧
    "b" ≠ nameWithNul := by
  refine ⟨?_, ?_, ?_⟩ <;> decide

/-- C11 (amended): for every list wrapper on the mock native layer, either
evaluation order of the pair's components, every index and every name:
`getPair(index)` returns `(first, second)` exactly when `getName(index)`
returns `first` and `getValue(index)` returns `second`; it throws exactly when
one of the two lookups throws, and never reads an unset value.
`getPairByName(name)` equals `getPair(findByName(name))`, throws exactly when
`findByName(name)` throws, with the same error, and when it succeeds the first
component of the returned pair equals `name.c_str()` (the name cut at its first
NUL character, which is `name` itself when it contains none). -/
theorem paired_lookup_agrees_with_single_lookups (w : World MockNative) (order : ArgOrder)
    (this : Addr) (index : Int) (name : String) :
    (∀ first second,
      (CameraListWrapper.getPair mock order this index w).1 =
          Outcome.returned (first, second) ↔
        (CameraListWrapper.getName mock this index w).1 = Outcome.returned first ∧
        (CameraListWrapper.getValue mock this index w).1 = Outcome.returned second) ∧
    ((∃ e, (CameraListWrapper.getPair mock order this index w).1 = Outcome.thrown e) ↔
      ((∃ e, (CameraListWrapper.getName mock this index w).1 = Outcome.thrown e) ∨
       (∃ e, (CameraListWrapper.getValue mock this index w).1 = Outcome.thrown e))) ∧
    (CameraListWrapper.getPair mock order this index w).1 ≠ Outcome.undefinedBehaviour ∧
    (∀ i, (CameraListWrapper.findByName mock this name w).1 = Outcome.returned i →
      (CameraListWrapper.getPairByName mock order this name w).1 =
        (CameraListWrapper.getPair mock order this i
          (CameraListWrapper.findByName mock this name w).2).1 ∧
      (CameraListWrapper.getPairByName mock order this name w).1 =
        (CameraListWrapper.getPair mock order this i w).1) ∧
    (∀ e, (CameraListWrapper.getPairByName mock order this name w).1 = Outcome.thrown e ↔
      (CameraListWrapper.findByName mock this name w).1 = Outcome.thrown e) ∧
    (∀ p, (CameraListWrapper.getPairByName mock order this name w).1 = Outcome.returned p →
      p.1 = c_str name) ∧
    (Char.ofNat 0 ∉ name.data → c_str name = name) := by
  have hbyName : ∀ i, (CameraListWrapper.findByName mock this name w).1 = Outcome.returned i →
      (CameraListWrapper.getPairByName mock order this name w).1 =
        (CameraListWrapper.makePairOfNameAndValue mock this i order
          (CameraListWrapper.findByName mock this name w).2).1 := by
    intro i hi
    simp only [CameraListWrapper.getPairByName, Exec.bind_eq]
    rw [Exec.bind_fst, hi]
  have hsame : ∀ i,
      (CameraListWrapper.makePairOfNameAndValue mock this i order
        (CameraListWrapper.findByName mock this name w).2).1 =
      (CameraListWrapper.makePairOfNameAndValue mock this i order w).1 := fun i =>
    CameraListWrapper.makePair_of_same w _ order this i
      (CameraListWrapper.findByName_world w this name).1
      (CameraListWrapper.findByName_world w this name).2
  refine ⟨?_, ?_, ?_, ?_, ?_, ?_, c_str_of_no_nul name⟩
  · intro first second
    simp only [CameraListWrapper.getPair]
    rw [CameraListWrapper.makePair_mock, CameraListWrapper.getName_mock,
      CameraListWrapper.getValue_mock]
    cases hc : Mock.checkList w.native (w.m_cameraList this) with
    | none => cases order <;> simp
    | some h =>
      by_cases hr : 0 ≤ index ∧ index < ((w.native.lists h).entries.length : Int)
      · cases order <;> simp [hr, Prod.ext_iff]
      · cases order <;> simp [hr]
  · simp only [CameraListWrapper.getPair]
    rw [CameraListWrapper.makePair_mock, CameraListWrapper.getName_mock,
      CameraListWrapper.getValue_mock]
    cases hc : Mock.checkList w.native (w.m_cameraList this) with
    | none => cases order <;> simp
    | some h =>
      by_cases hr : 0 ≤ index ∧ index < ((w.native.lists h).entries.length : Int)
      · cases order <;> simp [hr, Prod.ext_iff]
      · cases order <;> simp [hr]
  · simp only [CameraListWrapper.getPair]
    rw [CameraListWrapper.makePair_mock, CameraListWrapper.getName_mock,
      CameraListWrapper.getValue_mock]
    cases hc : Mock.checkList w.native (w.m_cameraList this) with
    | none => cases order <;> simp
    | some h =>
      by_cases hr : 0 ≤ index ∧ index < ((w.native.lists h).entries.length : Int)
      · cases order <;> simp [hr, Prod.ext_iff]
      · cases order <;> simp [hr]
  · intro i hi
    refine ⟨hbyName i hi, ?_⟩
    rw [hbyName i hi, hsame i]
    rfl
  · intro e
    cases hf : (CameraListWrapper.findByName mock this name w).1 with
    | returned i =>
      obtain ⟨value, hv⟩ := CameraListWrapper.makePair_at_found w order this name i hf
      rw [hbyName i hf, hsame i, hv]
      simp
    | thrown e' =>
      simp only [CameraListWrapper.getPairByName, Exec.bind_eq]
      rw [Exec.bind_fst, hf]
      simp
    | undefinedBehaviour =>
      simp only [CameraListWrapper.getPairByName, Exec.bind_eq]
      rw [Exec.bind_fst, hf]
      simp
  · intro p hp
    cases hf : (CameraListWrapper.findByName mock this name w).1 with
    | returned i =>
      obtain ⟨value, hv⟩ := CameraListWrapper.makePair_at_found w order this name i hf
      rw [hbyName i hf, hsame i, hv] at hp
      cases hp
      rfl
    | thrown e' =>
      simp only [CameraListWrapper.getPairByName, Exec.bind_eq] at hp
      rw [Exec.bind_fst, hf] at hp
      cases hp
    | undefinedBehaviour =>
      simp only [CameraListWrapper.getPairByName, Exec.bind_eq] at hp
      rw [Exec.bind_fst, hf] at hp
      cases hp

/-- C11 (witness): in `abList`, `findByName("b")` returns 1 and
`getPairByName("b")` returns the pair `getPair(1)`, whose first component is
"b". -/
theorem paired_lookup_witness :
    (CameraListWrapper.findByName mock 0 "b" abList).1 = Outcome.returned 1 ∧
    (CameraListWrapper.getPairByName mock ArgOrder.rightToLeft 0 "b" abList).1 =
      (CameraListWrapper.getPair mock ArgOrder.rightToLeft 0 1 abList).1 ∧
    (CameraListWrapper.getPairByName mock ArgOrder.rightToLeft 0 "b" abList).1 =
      Outcome.returned ("b", "2") ∧
    ("b", "2").1 = c_str "b" :=
  ⟨by decide,
    ((paired_lookup_agrees_with_single_lookups abList ArgOrder.rightToLeft 0 1 "b").2.2.2.1 1
      (by decide)).2,
    by decide,
    (paired_lookup_agrees_with_single_lookups abList ArgOrder.rightToLeft 0 1 "b").2.2.2.2.2.1
      ("b", "2") (by decide)⟩

/-! ## C12: the byte payload -/

theorem Mock.checkFile_some (s : MockNative) (p : Ptr) (h : Nat)
    (hc : Mock.checkFile s p = some h) : p = some h ∧ (s.files h).ref_count ≠ 0 := by
  cases p with
  | none => simp [Mock.checkFile] at hc
  | some q =>
    by_cases hv : (s.files q).ref_count = 0
    · simp [Mock.checkFile, hv] at hc
    · simp only [Mock.checkFile, hv, if_false, Option.some.injEq] at hc
      subst hc
      exact ⟨rfl, hv⟩

/-- C12: on the mock native layer, for every byte sequence `v` (the empty one
included), after a `setDataAndSize(v)` that returned, the wrapper's handle is
non-null and `getDataAndSize()` returns `v`.  Over every native layer,
`getDataAndSize()` returns exactly the bytes the native call reported, as many
and in the same order, when that call succeeds, and throws the library error,
returning nothing, when the native call reports an error code. -/
theorem getDataAndSize_returns_what_was_set {σ : Type} (N : NativeLayer σ) (wN : World σ)
    (w : World MockNative) (this : Addr) (v : List Byte) :
    ((CameraFileWrapper.setDataAndSize mock this v w).1 = Outcome.returned () →
      w.m_cameraFile this ≠ nullptr ∧
      (CameraFileWrapper.getDataAndSize mock this
        (CameraFileWrapper.setDataAndSize mock this v w).2).1 = Outcome.returned v) ∧
    (∀ buffer, 0 ≤ (N.gp_file_get_data_and_size (wN.m_cameraFile this) wN.native).1.1 →
      (N.gp_file_get_data_and_size (wN.m_cameraFile this) wN.native).1.2 = some buffer →
      (CameraFileWrapper.getDataAndSize N this wN).1 = Outcome.returned buffer) ∧
    ((N.gp_file_get_data_and_size (wN.m_cameraFile this) wN.native).1.1 < 0 →
      (CameraFileWrapper.getDataAndSize N this wN).1 = Outcome.thrown
        (gphoto2_exception.mk
          (N.gp_file_get_data_and_size (wN.m_cameraFile this) wN.native).1.1
          "gp_file_get_data_and_size")) := by
  refine ⟨?_, ?_, ?_⟩
  · intro hset
    cases hc : Mock.checkFile w.native (w.m_cameraFile this) with
    | none =>
      simp [CameraFileWrapper.setDataAndSize, Exec.bind, get_m_cameraFile, nativeCall, mock,
        Mock.gp_file_set_data_and_size, hc, checkResponse, GP_ERROR_BAD_PARAMETERS,
        throwException] at hset
    | some h =>
      obtain ⟨hp, hv⟩ := Mock.checkFile_some _ _ _ hc
      refine ⟨by simp [hp], ?_⟩
      simp [CameraFileWrapper.setDataAndSize, CameraFileWrapper.getDataAndSize, Exec.bind,
        get_m_cameraFile, nativeCall, mock, Mock.gp_file_set_data_and_size,
        Mock.gp_file_get_data_and_size, hc, checkResponse, GP_OK, Exec.pure, Mock.setFile, hp,
        Mock.checkFile, hv]
  · intro buffer hcode hbuf
    have hneg : ¬ (N.gp_file_get_data_and_size (wN.m_cameraFile this) wN.native).1.1 < 0 := by
      omega
    simp [CameraFileWrapper.getDataAndSize, Exec.bind, get_m_cameraFile, nativeCall,
      checkResponse, hneg, Exec.pure, hbuf]
  · intro hcode
    simp [CameraFileWrapper.getDataAndSize, Exec.bind, get_m_cameraFile, nativeCall,
      checkResponse, hcode, throwException]

/-- C12 (witness): on the file wrapper at address 0 of `twoFiles`,
`setDataAndSize` of the three bytes 1, 2, 3 returns, and `getDataAndSize` then
returns these three bytes; with the empty sequence it returns the empty
sequence. -/
theorem getDataAndSize_witness :
    (CameraFileWrapper.setDataAndSize mock 0 [1, 2, 3] twoFiles).1 = Outcome.returned () ∧
    (CameraFileWrapper.getDataAndSize mock 0
      (CameraFileWrapper.setDataAndSize mock 0 [1, 2, 3] twoFiles).2).1 =
        Outcome.returned [1, 2, 3] ∧
    (CameraFileWrapper.getDataAndSize mock 0
      (CameraFileWrapper.setDataAndSize mock 0 [] twoFiles).2).1 = Outcome.returned [] :=
  ⟨by decide,
    ((getDataAndSize_returns_what_was_set mock twoFiles twoFiles 0 [1, 2, 3]).1
      (by decide)).2,
    ((getDataAndSize_returns_what_was_set mock twoFiles twoFiles 0 []).1 (by decide)).2⟩

/-! ## C13: the listener state machine -/

theorem CameraWrapper.step_listeners (c : CameraWrapper) (ev : CameraWrapper.Event)
    (hc : c.listeners = if c.state = ListenerState.Idle then 0 else 1) :
    (c.step ev).listeners = if (c.step ev).state = ListenerState.Idle then 0 else 1 := by
  obtain ⟨state, listeners⟩ := c
  cases ev <;> cases state <;>
    simp_all [CameraWrapper.step, CameraWrapper.startListeningForEvents,
      CameraWrapper.stopListeningForEvents, CameraWrapper.signalStop,
      CameraWrapper.listenerObservesStop, CameraWrapper.m_listenForEvents]

theorem CameraWrapper.foldl_listeners (events : List CameraWrapper.Event) (c : CameraWrapper)
    (hc : c.listeners = if c.state = ListenerState.Idle then 0 else 1) :
    (events.foldl CameraWrapper.step c).listeners =
      if (events.foldl CameraWrapper.step c).state = ListenerState.Idle then 0 else 1 := by
  induction events generalizing c with
  | nil => exact hc
  | cons ev events ih => exact ih (c.step ev) (CameraWrapper.step_listeners c ev hc)

/-- C13: in the listener state machine of `CameraWrapper`,
`startListeningForEvents` returns true exactly when the session is Idle, and
then moves it to Listening with one more listener thread; when the session is
already listening (Listening or StopRequested) it returns false and changes
nothing; `stopListeningForEvents` called while Idle returns without error and
leaves the session as it was; and in every state reached from a fresh session
the number of live listener threads is 0 when Idle and 1 otherwise, so at most
one listener is active. -/
theorem listener_is_started_at_most_once (c : CameraWrapper)
    (events : List CameraWrapper.Event) :
    (c.startListeningForEvents.1 = Outcome.returned true ↔ c.state = ListenerState.Idle) ∧
    (c.state = ListenerState.Idle →
      c.startListeningForEvents.2.state = ListenerState.Listening ∧
      c.startListeningForEvents.2.listeners = c.listeners + 1) ∧
    (c.state ≠ ListenerState.Idle →
      c.startListeningForEvents = (Outcome.returned false, c)) ∧
    (c.state = ListenerState.Idle → c.stopListeningForEvents = (Outcome.returned (), c)) ∧
    (CameraWrapper.run events).listeners ≤ 1 ∧
    ((CameraWrapper.run events).listeners =
      if (CameraWrapper.run events).state = ListenerState.Idle then 0 else 1) := by
  have hrun := CameraWrapper.foldl_listeners events CameraWrapper.initial (by decide)
  refine ⟨?_, ?_, ?_, ?_, ?_, hrun⟩
  · obtain ⟨state, listeners⟩ := c
    cases state <;>
      simp [CameraWrapper.startListeningForEvents, CameraWrapper.m_listenForEvents]
  · intro h
    simp [CameraWrapper.startListeningForEvents, CameraWrapper.m_listenForEvents, h]
  · intro h
    simp [CameraWrapper.startListeningForEvents, CameraWrapper.m_listenForEvents, h]
  · intro h
    simp [CameraWrapper.stopListeningForEvents, CameraWrapper.m_listenForEvents, h]
  · unfold CameraWrapper.run
    rw [hrun]
    split <;> omega

/-- C13 (witness): a fresh session is Idle; the first `startListeningForEvents`
returns true and the session is Listening with one listener; a second call
returns false and changes nothing. -/
theorem listener_witness :
    CameraWrapper.initial.state = ListenerState.Idle ∧
    CameraWrapper.initial.startListeningForEvents.1 = Outcome.returned true ∧
    CameraWrapper.initial.startListeningForEvents.2.state = ListenerState.Listening ∧
    CameraWrapper.initial.startListeningForEvents.2.state ≠ ListenerState.Idle ∧
    CameraWrapper.initial.startListeningForEvents.2.startListeningForEvents =
      (Outcome.returned false, CameraWrapper.initial.startListeningForEvents.2) :=
  ⟨rfl,
    (listener_is_started_at_most_once CameraWrapper.initial []).1.mpr rfl,
    ((listener_is_started_at_most_once CameraWrapper.initial []).2.1 rfl).1,
    by decide,
    (listener_is_started_at_most_once CameraWrapper.initial.startListeningForEvents.2
      []).2.2.1 (by decide)⟩

/-! ## C14: assignments that throw -/

theorem CameraListWrapper.moveAssign_thrown {σ : Type} (N : NativeLayer σ) (w : World σ)
    (this other : Addr) (e : gphoto2_exception)
    (he : (CameraListWrapper.moveAssign N this other w).1 = Outcome.thrown e) :
    e.afterMethod = "gp_list_unref" ∧
    (CameraListWrapper.moveAssign N this other w).2.m_cameraList = w.m_cameraList := by
  by_cases hne : this = other
  · subst hne
    simp [CameraListWrapper.moveAssign] at he
  · cases ht : w.m_cameraList this with
    | none =>
      simp [CameraListWrapper.moveAssign, Exec.bind, set_m_cameraList, get_m_cameraList, ht,
        hne, Exec.pure] at he
    | some p =>
      by_cases hcode : (N.gp_list_unref (some p) w.native).1 < 0
      · simp [CameraListWrapper.moveAssign, Exec.bind, set_m_cameraList, get_m_cameraList,
          ht, hne, nativeCall, checkResponse, hcode, throwException] at he ⊢
        rw [← he]
      · simp [CameraListWrapper.moveAssign, Exec.bind, set_m_cameraList, get_m_cameraList,
          ht, hne, nativeCall, checkResponse, hcode, Exec.pure] at he

theorem CameraFileWrapper.file_moveAssign_thrown {σ : Type} (N : NativeLayer σ)
    (w : World σ) (this other : Addr) (e : gphoto2_exception)
    (he : (CameraFileWrapper.moveAssign N this other w).1 = Outcome.thrown e) :
    e.afterMethod = "gp_file_unref" ∧
    (CameraFileWrapper.moveAssign N this other w).2.m_cameraFile = w.m_cameraFile := by
  by_cases hne : this = other
  · subst hne
    simp [CameraFileWrapper.moveAssign] at he
  · cases ht : w.m_cameraFile this with
    | none =>
      simp [CameraFileWrapper.moveAssign, Exec.bind, set_m_cameraFile, get_m_cameraFile, ht,
        hne, Exec.pure] at he
    | some p =>
      by_cases hcode : (N.gp_file_unref (some p) w.native).1 < 0
      · simp [CameraFileWrapper.moveAssign, Exec.bind, set_m_cameraFile, get_m_cameraFile,
          ht, hne, nativeCall, checkResponse, hcode, throwException] at he ⊢
        rw [← he]
      · simp [CameraFileWrapper.moveAssign, Exec.bind, set_m_cameraFile, get_m_cameraFile,
          ht, hne, nativeCall, checkResponse, hcode, Exec.pure] at he

theorem CameraListWrapper.copyAssign_thrown {σ : Type} (N : NativeLayer σ) (w : World σ)
    (this other : Addr) (e : gphoto2_exception)
    (he : (CameraListWrapper.copyAssign N this other w).1 = Outcome.thrown e) :
    (CameraListWrapper.copyAssign N this other w).2.m_cameraList other =
      w.m_cameraList other ∧
    ((e.afterMethod = "gp_list_unref" ∧
        (CameraListWrapper.copyAssign N this other w).2.m_cameraList = w.m_cameraList) ∨
     (e.afterMethod = "gp_list_ref" ∧
        (CameraListWrapper.copyAssign N this other w).2.m_cameraList =
          Function.update w.m_cameraList this (w.m_cameraList other))) := by
  by_cases hne : this = other
  · subst hne
    simp [CameraListWrapper.copyAssign] at he
  · have hne' : other ≠ this := fun h => hne h.symm
    cases ht : w.m_cameraList this with
    | none =>
      cases ho : w.m_cameraList other with
      | none =>
        simp [CameraListWrapper.copyAssign, Exec.bind, set_m_cameraList, get_m_cameraList,
          ht, ho, hne, Exec.pure] at he
      | some q =>
        by_cases hcode : (N.gp_list_ref (some q) w.native).1 < 0
        · simp [CameraListWrapper.copyAssign, Exec.bind, set_m_cameraList, get_m_cameraList,
            ht, ho, hne, nativeCall, checkResponse, hcode, throwException] at he ⊢
          exact ⟨by simp [Function.update_noteq hne', ho], by rw [← he]⟩
        · simp [CameraListWrapper.copyAssign, Exec.bind, set_m_cameraList, get_m_cameraList,
            ht, ho, hne, nativeCall, checkResponse, hcode, Exec.pure] at he
    | some p =>
      by_cases hcode : (N.gp_list_unref (some p) w.native).1 < 0
      · simp [CameraListWrapper.copyAssign, Exec.bind, set_m_cameraList, get_m_cameraList,
          ht, hne, nativeCall, checkResponse, hcode, throwException] at he ⊢
        exact Or.inl (by rw [← he])
      · cases ho : w.m_cameraList other with
        | none =>
          simp [CameraListWrapper.copyAssign, Exec.bind, set_m_cameraList, get_m_cameraList,
            ht, ho, hne, nativeCall, checkResponse, hcode, Exec.pure] at he
        | some q =>
          by_cases hcode2 :
              (N.gp_list_ref (some q) (N.gp_list_unref (some p) w.native).2).1 < 0
          · simp [CameraListWrapper.copyAssign, Exec.bind, set_m_cameraList,
              get_m_cameraList, ht, ho, hne, nativeCall, checkResponse, hcode, hcode2,
              throwException, Exec.pure] at he ⊢
            exact ⟨by simp [Function.update_noteq hne', ho], Or.inr (by rw [← he])⟩
          · simp [CameraListWrapper.copyAssign, Exec.bind, set_m_cameraList,
              get_m_cameraList, ht, ho, hne, nativeCall, checkResponse, hcode, hcode2,
              Exec.pure] at he

/-- C14 (counterexample): in `staleLists` the list wrappers at addresses 0 and
1 hold handles 0 and 1, and the native layer no longer knows handle 1.  The
copy assignment of object 1 to object 0 unrefs handle 0, takes over the pointer
of object 1 and then throws because `gp_list_ref` on handle 1 returns an error
code: object 0 now holds handle 1, not the handle 0 it held before the call. -/
theorem copyAssign_throws_after_overwriting_pointer :
    staleLists.m_cameraList 0 = some 0 ∧ staleLists.m_cameraList 1 = some 1 ∧
    listRefCount staleLists 0 = 1 ∧ listRefCount staleLists 1 = 0 ∧
    (CameraListWrapper.copyAssign mock 0 1 staleLists).1 =
      Outcome.thrown (gphoto2_exception.mk GP_ERROR_BAD_PARAMETERS "gp_list_ref") ∧
    (CameraListWrapper.copyAssign mock 0 1 staleLists).2.calls =
      staleLists.calls ++ [NativeCall.mk NativeFn.gp_list_unref (some 0),
        NativeCall.mk NativeFn.gp_list_ref (some 1)] ∧
    (CameraListWrapper.copyAssign mock 0 1 staleLists).2.m_cameraList 0 = some 1 ∧
    (CameraListWrapper.copyAssign mock 0 1 staleLists).2.m_cameraList 0 ≠
      staleLists.m_cameraList 0 := by
  refine ⟨?_, ?_, ?_, ?_, ?_, ?_, ?_, ?_⟩ <;> decide

/-- C14 (amended): over every native layer.  When a move assignment of a list
wrapper or of a file wrapper throws, the error comes from the unref of the
destination's current handle and both the destination and the source still
hold the pointers they held before the call.  When the copy assignment of a
list wrapper throws, the source's pointer is unchanged, and the error comes
either from the unref of the destination's current handle, in which case the
destination still holds the pointer it held before, or from the ref of the
source's handle, in which case the destination already holds the source's
pointer. -/
theorem failed_assignment_pointer_state {σ : Type} (N : NativeLayer σ) (w : World σ)
    (this other : Addr) (e : gphoto2_exception) :
    ((CameraListWrapper.moveAssign N this other w).1 = Outcome.thrown e →
      e.afterMethod = "gp_list_unref" ∧
      (CameraListWrapper.moveAssign N this other w).2.m_cameraList this =
        w.m_cameraList this ∧
      (CameraListWrapper.moveAssign N this other w).2.m_cameraList other =
        w.m_cameraList other) ∧
    ((CameraFileWrapper.moveAssign N this other w).1 = Outcome.thrown e →
      e.afterMethod = "gp_file_unref" ∧
      (CameraFileWrapper.moveAssign N this other w).2.m_cameraFile this =
        w.m_cameraFile this ∧
      (CameraFileWrapper.moveAssign N this other w).2.m_cameraFile other =
        w.m_cameraFile other) ∧
    ((CameraListWrapper.copyAssign N this other w).1 = Outcome.thrown e →
      (CameraListWrapper.copyAssign N this other w).2.m_cameraList other =
        w.m_cameraList other ∧
      (e.afterMethod = "gp_list_unref" ∨ e.afterMethod = "gp_list_ref") ∧
      (e.afterMethod = "gp_list_unref" →
        (CameraListWrapper.copyAssign N this other w).2.m_cameraList this =
          w.m_cameraList this) ∧
      (e.afterMethod = "gp_list_ref" →
        (CameraListWrapper.copyAssign N this other w).2.m_cameraList this =
          w.m_cameraList other)) := by
  refine ⟨?_, ?_, ?_⟩
  · intro he
    obtain ⟨h1, h2⟩ := CameraListWrapper.moveAssign_thrown N w this other e he
    exact ⟨h1, by rw [h2], by rw [h2]⟩
  · intro he
    obtain ⟨h1, h2⟩ := CameraFileWrapper.file_moveAssign_thrown N w this other e he
    exact ⟨h1, by rw [h2], by rw [h2]⟩
  · intro he
    obtain ⟨h1, h2⟩ := CameraListWrapper.copyAssign_thrown N w this other e he
    have hlabel : ("gp_list_unref" : String) ≠ "gp_list_ref" := by decide
    refine ⟨h1, ?_, ?_, ?_⟩
    · rcases h2 with ⟨h, _⟩ | ⟨h, _⟩
      · exact Or.inl h
      · exact Or.inr h
    · intro hu
      rcases h2 with ⟨_, h⟩ | ⟨h, _⟩
      · rw [h]
      · exact absurd (hu.symm.trans h) hlabel
    · intro hr
      rcases h2 with ⟨h, _⟩ | ⟨_, h⟩
      · exact absurd (h.symm.trans hr) hlabel
      · rw [h, Function.update_same]

/-- C14 (witness): in `staleLists` the move assignment of object 0 to object 1
throws, because the unref of the stale handle 1 returns an error code, and both
objects keep their pointers. -/
theorem failed_assignment_witness :
    (CameraListWrapper.moveAssign mock 1 0 staleLists).1 =
      Outcome.thrown (gphoto2_exception.mk GP_ERROR_BAD_PARAMETERS "gp_list_unref") ∧
    (CameraListWrapper.moveAssign mock 1 0 staleLists).2.m_cameraList 1 =
      staleLists.m_cameraList 1 ∧
    (CameraListWrapper.moveAssign mock 1 0 staleLists).2.m_cameraList 0 =
      staleLists.m_cameraList 0 :=
  ⟨by decide,
    ((failed_assignment_pointer_state mock staleLists 1 0
      (gphoto2_exception.mk GP_ERROR_BAD_PARAMETERS "gp_list_unref")).1 (by decide)).2.1,
    ((failed_assignment_pointer_state mock staleLists 1 0
      (gphoto2_exception.mk GP_ERROR_BAD_PARAMETERS "gp_list_unref")).1 (by decide)).2.2⟩

end gphoto2pp
